import Mathlib

/-!
# GR551x application DMA driver (app_dma.c): embedding and verified properties

The driver keeps a static table `s_dma_env` of `DMA_HANDLE_MAX` channel slots, a
flag recording whether the sleep callbacks are registered with the power manager,
and the token that registration returned.  The HAL (`hal_dma_*`), the interrupt
controller (`hal_nvic_*`) and the power manager (`pwr_*`) are collaborators whose
code is not part of the driver: they are taken as a parameter (`Platform`), acting
on an arbitrary hardware state `W`.  Every call into a collaborator is recorded,
in program order, in the `trace` component of the state.

The embedding is of the default build: `APP_DRIVER_WAKEUP_CALL_FUN` is not defined.
-/

namespace AppDma

/-! ## Data model -/

/-- Capacity of the slot table: `#define DMA_HANDLE_MAX 8`. -/
def DMA_HANDLE_MAX : Nat := 8

/-- Slot occupancy, `app_dma_state_t` (the default build has no `APP_DMA_SLEEP`). -/
inductive app_dma_state_t where
  | APP_DMA_INVALID
  | APP_DMA_ACTIVITY
  deriving DecidableEq, Repr

/-- Modelled from the spec: the HAL header that declares `hal_dma_state_t` is not
part of the driver source; the driver names RESET, READY and BUSY, the remaining
values stand for every other status the HAL may report. -/
inductive hal_dma_state_t where
  | HAL_DMA_STATE_RESET
  | HAL_DMA_STATE_READY
  | HAL_DMA_STATE_BUSY
  | HAL_DMA_STATE_TIMEOUT
  | HAL_DMA_STATE_ERROR
  deriving DecidableEq, Repr

/-- Events delivered to a slot owner, `app_dma_evt_type_t`. -/
inductive app_dma_evt_type_t where
  | APP_DMA_EVT_ERROR
  | APP_DMA_EVT_TFR
  deriving DecidableEq, Repr

/-- Hardware channel selector (a C enumeration, kept as its numeric value). -/
abbrev dma_channel_t := Nat

/-- Transfer configuration block, copied verbatim into the handle. -/
abbrev dma_init_t := Nat

/-- HAL status code, kept as its numeric value. -/
abbrev hal_status_t := Nat

/-- Slot id handed to the application; `-1` is the failure id. -/
abbrev dma_id_t := Int

/-- Token returned by the power manager on registration. -/
abbrev pwr_id_t := Int

/-- Owner's event handler: a function pointer, `none` is `NULL`. -/
abbrev app_dma_evt_handler_t := Option Nat

/-- The two completion callbacks the driver installs into a handle. -/
inductive xfer_callback_t where
  | dma_tfr_callback
  | dma_err_callback
  deriving DecidableEq, Repr

/-- The fields of `dma_handle_t` the driver reads or writes. -/
structure dma_handle_t where
  channel : dma_channel_t
  init : dma_init_t
  state : hal_dma_state_t
  xfer_tfr_callback : Option xfer_callback_t
  xfer_error_callback : Option xfer_callback_t
  xfer_abort_callback : Option xfer_callback_t
  deriving DecidableEq, Repr

/-- One entry of the slot table, `struct dma_env_t`. -/
structure dma_env_t where
  dma_state : app_dma_state_t
  handle : dma_handle_t
  evt_handler : app_dma_evt_handler_t
  deriving DecidableEq, Repr

/-- Parameter block of `app_dma_init`, `app_dma_params_t`. -/
structure app_dma_params_t where
  channel_number : dma_channel_t
  init : dma_init_t
  deriving DecidableEq, Repr

/-- A call from the driver into a collaborator.  A handle argument
`&s_dma_env[i].handle` is recorded as the slot index `i`. -/
inductive Call where
  | hal_dma_init (i : Nat)
  | hal_dma_deinit (i : Nat)
  | hal_dma_get_state (i : Nat)
  | hal_dma_suspend_reg (i : Nat)
  | hal_dma_resume_reg (i : Nat)
  | hal_dma_start_it (i : Nat) (src dst len : Nat)
  | hal_dma_irq_handler (i : Nat)
  | hal_nvic_clear_pending_irq
  | hal_nvic_enable_irq
  | hal_nvic_disable_irq
  | pwr_register_sleep_cb
  | pwr_unregister_sleep_cb (id : pwr_id_t)
  | evt_handler (h : Nat) (evt : app_dma_evt_type_t)
  | platform_interrupt_protection_push
  | platform_interrupt_protection_pop
  deriving DecidableEq, Repr

/-- Everything the driver uses that is declared outside `app_dma.c`: the constants
and the channel-set test of the missing headers, and the collaborator operations.
A collaborator operation reads and updates the hardware state `W` and the handle
it is given a pointer to. -/
structure Platform (W : Type) where
  IS_DMA_ALL_INSTANCE : dma_channel_t → Bool
  /-- Value of the cast `(dma_channel_t)(-1)`. -/
  DMA_CHANNEL_NEG1 : dma_channel_t
  HAL_OK : hal_status_t
  HAL_ERROR : hal_status_t
  APP_DRV_SUCCESS : Nat
  APP_DRV_ERR_INVALID_ID : Nat
  APP_DRV_ERR_INVALID_PARAM : Nat
  FLASH_PROTECT_PRIORITY : Bool
  hal_dma_init : W → dma_handle_t → hal_status_t × dma_handle_t × W
  hal_dma_deinit : W → dma_handle_t → hal_status_t × dma_handle_t × W
  hal_dma_get_state : W → dma_handle_t → hal_dma_state_t
  hal_dma_suspend_reg : W → dma_handle_t → dma_handle_t × W
  hal_dma_resume_reg : W → dma_handle_t → dma_handle_t × W
  hal_dma_start_it : W → dma_handle_t → Nat → Nat → Nat → hal_status_t × dma_handle_t × W
  hal_dma_irq_handler : W → dma_handle_t → dma_handle_t × W
  pwr_register_sleep_cb : W → pwr_id_t × W
  pwr_unregister_sleep_cb : W → pwr_id_t → W

/-- The driver's static variables, the enable bit of the shared DMA interrupt line,
the hardware state and the record of collaborator calls.  Only the entries
`0 .. DMA_HANDLE_MAX - 1` of `s_dma_env` are ever read or written. -/
structure State (W : Type) where
  s_sleep_cb_registered_flag : Bool
  s_dma_env : Nat → dma_env_t
  s_dma_pwr_id : pwr_id_t
  irq_enabled : Bool
  hw : W
  trace : List Call

/-- Zero-initialised handle. -/
def zero_handle : dma_handle_t :=
  { channel := 0, init := 0, state := hal_dma_state_t.HAL_DMA_STATE_RESET,
    xfer_tfr_callback := none, xfer_error_callback := none, xfer_abort_callback := none }

/-- Zero-initialised slot: `APP_DMA_INVALID = 0`, null handler. -/
def zero_env : dma_env_t :=
  { dma_state := app_dma_state_t.APP_DMA_INVALID, handle := zero_handle, evt_handler := none }

/-- State at start-up: the statics are zero-initialised, the flag is `false`,
the interrupt line is disabled and nothing has been called yet. -/
def init_state {W : Type} (w0 : W) : State W :=
  { s_sleep_cb_registered_flag := false, s_dma_env := fun _ => zero_env, s_dma_pwr_id := 0,
    irq_enabled := false, hw := w0, trace := [] }

/-! ## Helpers shared by the operations -/

/-- Assignment `s_dma_env[i] = e`. -/
def set_env (env : Nat → dma_env_t) (i : Nat) (e : dma_env_t) : Nat → dma_env_t :=
  fun j => if j = i then e else env j

/-- The loop `for (i = start; ...; i++) if (p i) break;` run for at most `n`
iterations: the index at which it breaks, if it does. -/
def first_from (p : Nat → Bool) : Nat → Nat → Option Nat
  | 0, _ => none
  | n + 1, i => if p i then some i else first_from p n (i + 1)

/-- Modelled from the spec: `hal_nvic_clear_pending_irq(DMA_IRQn)` of the interrupt
controller, which is not part of the driver source; only the call is recorded. -/
def hal_nvic_clear_pending_irq {W : Type} (s : State W) : State W :=
  { s with trace := s.trace ++ [Call.hal_nvic_clear_pending_irq] }

/-- Modelled from the spec: `hal_nvic_enable_irq(DMA_IRQn)` of the interrupt
controller, which is not part of the driver source; it enables the shared line. -/
def hal_nvic_enable_irq {W : Type} (s : State W) : State W :=
  { s with irq_enabled := true, trace := s.trace ++ [Call.hal_nvic_enable_irq] }

/-- Modelled from the spec: `hal_nvic_disable_irq(DMA_IRQn)` of the interrupt
controller, which is not part of the driver source; it disables the shared line. -/
def hal_nvic_disable_irq {W : Type} (s : State W) : State W :=
  { s with irq_enabled := false, trace := s.trace ++ [Call.hal_nvic_disable_irq] }

/-! ## Power-manager callbacks -/

/-- Body of the loop of `dma_prepare_for_sleep`, from index `i`, for `n` more
iterations.  The result is the function's return value (`false` as soon as an
ACTIVE slot reports a state other than RESET and READY). -/
def prepare_loop {W : Type} (P : Platform W) : Nat → Nat → State W → Bool × State W
  | 0, _, s => (true, s)
  | n + 1, i, s =>
    if (s.s_dma_env i).dma_state = app_dma_state_t.APP_DMA_ACTIVITY then
      let state := P.hal_dma_get_state s.hw (s.s_dma_env i).handle
      let s1 : State W := { s with trace := s.trace ++ [Call.hal_dma_get_state i] }
      if state ≠ hal_dma_state_t.HAL_DMA_STATE_RESET ∧ state ≠ hal_dma_state_t.HAL_DMA_STATE_READY then
        (false, s1)
      else
        let r := P.hal_dma_suspend_reg s1.hw (s1.s_dma_env i).handle
        let s2 : State W :=
          { s1 with
            s_dma_env := set_env s1.s_dma_env i { s1.s_dma_env i with handle := r.1 },
            hw := r.2,
            trace := s1.trace ++ [Call.hal_dma_suspend_reg i] }
        prepare_loop P n (i + 1) s2
    else
      prepare_loop P n (i + 1) s

/-- The sleep-preparation callback `dma_prepare_for_sleep`. -/
def dma_prepare_for_sleep {W : Type} (P : Platform W) (s : State W) : Bool × State W :=
  prepare_loop P DMA_HANDLE_MAX 0 s

/-- The callback `dma_sleep_canceled`: its body is compiled out (`#if 0`). -/
def dma_sleep_canceled {W : Type} (s : State W) : State W := s

/-- Body of the loop of `dma_wake_up_ind`, from index `i`, for `n` more iterations,
carrying the local `find`. -/
def wake_loop {W : Type} (P : Platform W) : Nat → Nat → Bool → State W → Bool × State W
  | 0, _, find, s => (find, s)
  | n + 1, i, find, s =>
    if (s.s_dma_env i).dma_state = app_dma_state_t.APP_DMA_ACTIVITY then
      let r := P.hal_dma_resume_reg s.hw (s.s_dma_env i).handle
      let s1 : State W :=
        { s with
          s_dma_env := set_env s.s_dma_env i { s.s_dma_env i with handle := r.1 },
          hw := r.2,
          trace := s.trace ++ [Call.hal_dma_resume_reg i] }
      wake_loop P n (i + 1) true s1
    else
      wake_loop P n (i + 1) find s

/-- The wake-up callback `dma_wake_up_ind` (default build). -/
def dma_wake_up_ind {W : Type} (P : Platform W) (s : State W) : State W :=
  let r := wake_loop P DMA_HANDLE_MAX 0 false s
  if r.1 then hal_nvic_enable_irq (hal_nvic_clear_pending_irq r.2) else r.2

/-! ## HAL completion callbacks -/

/-- The search shared by `dma_tfr_callback` and `dma_err_callback`: the first slot
that is ACTIVE and whose handle has the channel of `hdma`. -/
def callback_slot (env : Nat → dma_env_t) (hdma : dma_handle_t) : Option Nat :=
  first_from
    (fun i => decide ((env i).dma_state = app_dma_state_t.APP_DMA_ACTIVITY) &&
      decide ((env i).handle.channel = hdma.channel))
    DMA_HANDLE_MAX 0

/-- Delivery of `evt` to the owner of the slot found by `callback_slot`. -/
def notify_owner {W : Type} (s : State W) (hdma : dma_handle_t) (evt : app_dma_evt_type_t) :
    State W :=
  match callback_slot s.s_dma_env hdma with
  | none => s
  | some i =>
    match (s.s_dma_env i).evt_handler with
    | none => s
    | some h => { s with trace := s.trace ++ [Call.evt_handler h evt] }

/-- The transfer-complete callback `dma_tfr_callback`. -/
def dma_tfr_callback {W : Type} (s : State W) (hdma : dma_handle_t) : State W :=
  notify_owner s hdma app_dma_evt_type_t.APP_DMA_EVT_TFR

/-- The transfer-error callback `dma_err_callback`. -/
def dma_err_callback {W : Type} (s : State W) (hdma : dma_handle_t) : State W :=
  notify_owner s hdma app_dma_evt_type_t.APP_DMA_EVT_ERROR

/-! ## Allocation and release -/

/-- The scan of `app_dma_init` (the loop between `GLOBAL_EXCEPTION_DISABLE` and
`GLOBAL_EXCEPTION_ENABLE`): the loop breaks at the first slot that is INVALID or
whose handle has the requested channel; if that handle is BUSY the loop index is
set to `DMA_HANDLE_MAX` (no slot, `none`), otherwise the slot is selected. -/
def init_scan (env : Nat → dma_env_t) (channel_number : dma_channel_t) : Option Nat :=
  match first_from
      (fun i => decide ((env i).dma_state = app_dma_state_t.APP_DMA_INVALID) ||
        decide ((env i).handle.channel = channel_number))
      DMA_HANDLE_MAX 0 with
  | none => none
  | some i =>
    if (env i).handle.state = hal_dma_state_t.HAL_DMA_STATE_BUSY then none else some i

/-- The tail of `app_dma_init`: `if (HAL_OK != status) id = -1; return id;`. -/
def init_result {W : Type} (P : Platform W) (status : hal_status_t) (id : dma_id_t) : dma_id_t :=
  if P.HAL_OK ≠ status then -1 else id

/-- The lazy registration of `app_dma_init`: when the flag is clear, set it and
register the sleep callbacks, keeping the returned token. -/
def register_sleep_cb {W : Type} (P : Platform W) (s : State W) : State W :=
  if s.s_sleep_cb_registered_flag = false then
    let r := P.pwr_register_sleep_cb s.hw
    { s with
      s_sleep_cb_registered_flag := true,
      s_dma_pwr_id := r.1,
      hw := r.2,
      trace := s.trace ++ [Call.pwr_register_sleep_cb] }
  else s

/-- The part of `app_dma_init` between the scan and the call of `hal_dma_init`, for
the slot `i` the scan selected: the slot is ACTIVE (set inside the scan), the sleep
callbacks are registered if they were not, the handle and the owner's handler are
filled in, the pending interrupt is cleared and the interrupt line enabled. -/
def init_prepare {W : Type} (P : Platform W) (s : State W) (p : app_dma_params_t)
    (evt_handler : app_dma_evt_handler_t) (i : Nat) : State W :=
  let s1 : State W :=
    { s with
      s_dma_env := set_env s.s_dma_env i
        { s.s_dma_env i with dma_state := app_dma_state_t.APP_DMA_ACTIVITY } }
  let s2 := register_sleep_cb P s1
  let h : dma_handle_t :=
    { (s2.s_dma_env i).handle with
      channel := p.channel_number,
      init := p.init,
      xfer_tfr_callback := some xfer_callback_t.dma_tfr_callback,
      xfer_error_callback := some xfer_callback_t.dma_err_callback,
      xfer_abort_callback := none }
  let s3 : State W :=
    { s2 with
      s_dma_env := set_env s2.s_dma_env i
        { s2.s_dma_env i with handle := h, evt_handler := evt_handler } }
  hal_nvic_enable_irq (hal_nvic_clear_pending_irq s3)

/-- The status `hal_dma_init` returns when `app_dma_init` calls it on slot `i`. -/
def init_hal_status {W : Type} (P : Platform W) (s : State W) (p : app_dma_params_t)
    (evt_handler : app_dma_evt_handler_t) (i : Nat) : hal_status_t :=
  (P.hal_dma_init (init_prepare P s p evt_handler i).hw
    ((init_prepare P s p evt_handler i).s_dma_env i).handle).1

/-- The allocation `app_dma_init(p_params, evt_handler)`; `none` is a null
parameter block.  Returns the slot id, or `-1`. -/
def app_dma_init {W : Type} (P : Platform W) (s : State W) (p_params : Option app_dma_params_t)
    (evt_handler : app_dma_evt_handler_t) : dma_id_t × State W :=
  match p_params with
  | none => (init_result P P.HAL_ERROR (-1), s)
  | some p =>
    if P.IS_DMA_ALL_INSTANCE p.channel_number = false then (-1, s)
    else
      match init_scan s.s_dma_env p.channel_number with
      | none => (init_result P P.HAL_ERROR (-1), s)
      | some i =>
        let s4 := init_prepare P s p evt_handler i
        let r := P.hal_dma_init s4.hw (s4.s_dma_env i).handle
        let s5 : State W :=
          { s4 with
            s_dma_env := set_env s4.s_dma_env i { s4.s_dma_env i with handle := r.2.1 },
            hw := r.2.2,
            trace := s4.trace ++ [Call.hal_dma_init i] }
        (init_result P r.1 (Int.ofNat i), s5)

/-- The rescan of `app_dma_deinit`: the first ACTIVE slot, if there is one. -/
def first_active (env : Nat → dma_env_t) : Option Nat :=
  first_from (fun i => decide ((env i).dma_state = app_dma_state_t.APP_DMA_ACTIVITY))
    DMA_HANDLE_MAX 0

/-- The release `app_dma_deinit(id)`.  Returns the driver status code. -/
def app_dma_deinit {W : Type} (P : Platform W) (s : State W) (id : dma_id_t) : Nat × State W :=
  if id < 0 ∨ id ≥ Int.ofNat DMA_HANDLE_MAX ∨
      (s.s_dma_env id.toNat).dma_state = app_dma_state_t.APP_DMA_INVALID then
    (P.APP_DRV_ERR_INVALID_ID, s)
  else
    let i := id.toNat
    let r := P.hal_dma_deinit s.hw (s.s_dma_env i).handle
    let s1 : State W :=
      { s with
        s_dma_env := set_env s.s_dma_env i
          { s.s_dma_env i with
            dma_state := app_dma_state_t.APP_DMA_INVALID,
            handle := { r.2.1 with channel := P.DMA_CHANNEL_NEG1 } },
        hw := r.2.2,
        trace := s.trace ++ [Call.hal_dma_deinit i] }
    match first_active s1.s_dma_env with
    | some _ => (P.APP_DRV_SUCCESS, s1)
    | none =>
      let s2 : State W :=
        { s1 with
          s_sleep_cb_registered_flag := false,
          hw := P.pwr_unregister_sleep_cb s1.hw s1.s_dma_pwr_id,
          trace := s1.trace ++ [Call.pwr_unregister_sleep_cb s1.s_dma_pwr_id] }
      (P.APP_DRV_SUCCESS, hal_nvic_disable_irq s2)

/-! ## Handle access, transfer start, interrupt service -/

/-- The accessor `app_dma_get_handle(id)`: `none` is `NULL`, otherwise the handle
of slot `id`.  It changes no state in the default build. -/
def app_dma_get_handle {W : Type} (s : State W) (id : dma_id_t) : Option dma_handle_t :=
  if id < 0 ∨ id ≥ Int.ofNat DMA_HANDLE_MAX ∨
      (s.s_dma_env id.toNat).dma_state = app_dma_state_t.APP_DMA_INVALID then
    none
  else some (s.s_dma_env id.toNat).handle

/-- The transfer start `app_dma_start(id, src_address, dst_address, data_length)`.
A HAL failure is returned as `(uint16_t)status`. -/
def app_dma_start {W : Type} (P : Platform W) (s : State W) (id : dma_id_t)
    (src_address dst_address data_length : Nat) : Nat × State W :=
  if id < 0 ∨ id ≥ Int.ofNat DMA_HANDLE_MAX ∨
      (s.s_dma_env id.toNat).dma_state = app_dma_state_t.APP_DMA_INVALID then
    (P.APP_DRV_ERR_INVALID_PARAM, s)
  else
    let i := id.toNat
    let r := P.hal_dma_start_it s.hw (s.s_dma_env i).handle src_address dst_address data_length
    let s1 : State W :=
      { s with
        s_dma_env := set_env s.s_dma_env i { s.s_dma_env i with handle := r.2.1 },
        hw := r.2.2,
        trace := s.trace ++ [Call.hal_dma_start_it i src_address dst_address data_length] }
    if P.HAL_OK ≠ r.1 then (r.1 % 65536, s1) else (P.APP_DRV_SUCCESS, s1)

/-- Body of the loop of `DMA_IRQHandler`, from index `i`, for `n` more iterations. -/
def irq_loop {W : Type} (P : Platform W) : Nat → Nat → State W → State W
  | 0, _, s => s
  | n + 1, i, s =>
    if (s.s_dma_env i).dma_state = app_dma_state_t.APP_DMA_ACTIVITY then
      let r := P.hal_dma_irq_handler s.hw (s.s_dma_env i).handle
      let s1 : State W :=
        { s with
          s_dma_env := set_env s.s_dma_env i { s.s_dma_env i with handle := r.1 },
          hw := r.2,
          trace := s.trace ++ [Call.hal_dma_irq_handler i] }
      irq_loop P n (i + 1) s1
    else
      irq_loop P n (i + 1) s

/-- The shared interrupt service routine `DMA_IRQHandler`. -/
def DMA_IRQHandler {W : Type} (P : Platform W) (s : State W) : State W :=
  let s0 : State W :=
    if P.FLASH_PROTECT_PRIORITY then
      { s with trace := s.trace ++ [Call.platform_interrupt_protection_push] }
    else s
  let s1 := irq_loop P DMA_HANDLE_MAX 0 s0
  if P.FLASH_PROTECT_PRIORITY then
    { s1 with trace := s1.trace ++ [Call.platform_interrupt_protection_pop] }
  else s1

/-! ## Sequences of driver entry points -/

/-- One call of a driver entry point (or of a callback the collaborators invoke). -/
inductive Op where
  | app_dma_init (p_params : Option app_dma_params_t) (evt_handler : app_dma_evt_handler_t)
  | app_dma_deinit (id : dma_id_t)
  | app_dma_start (id : dma_id_t) (src_address dst_address data_length : Nat)
  | dma_prepare_for_sleep
  | dma_sleep_canceled
  | dma_wake_up_ind
  | DMA_IRQHandler
  deriving DecidableEq, Repr

/-- State after one call. -/
def step {W : Type} (P : Platform W) (s : State W) : Op → State W
  | Op.app_dma_init p h => (app_dma_init P s p h).2
  | Op.app_dma_deinit id => (app_dma_deinit P s id).2
  | Op.app_dma_start id a b n => (app_dma_start P s id a b n).2
  | Op.dma_prepare_for_sleep => (dma_prepare_for_sleep P s).2
  | Op.dma_sleep_canceled => dma_sleep_canceled s
  | Op.dma_wake_up_ind => dma_wake_up_ind P s
  | Op.DMA_IRQHandler => DMA_IRQHandler P s

/-- State after a sequence of calls. -/
def run {W : Type} (P : Platform W) (s : State W) (ops : List Op) : State W :=
  ops.foldl (step P) s

/-- The flag is set exactly when some slot of the table is ACTIVE. -/
def flag_tracks_active {W : Type} (s : State W) : Prop :=
  s.s_sleep_cb_registered_flag = true ↔
    ∃ i, i < DMA_HANDLE_MAX ∧ (s.s_dma_env i).dma_state = app_dma_state_t.APP_DMA_ACTIVITY

/-- A request to `app_dma_init`: the parameter block and the owner's handler. -/
abbrev init_request := Option app_dma_params_t × app_dma_evt_handler_t

/-- State after a sequence of `app_dma_init` calls, with no other call in between. -/
def run_init {W : Type} (P : Platform W) (s : State W) (reqs : List init_request) : State W :=
  reqs.foldl (fun t r => (app_dma_init P t r.1 r.2).2) s

/-- Number of `pwr_register_sleep_cb` calls made so far. -/
def reg_count {W : Type} (s : State W) : Nat :=
  s.trace.count Call.pwr_register_sleep_cb

/-- The call `app_dma_init(p_params, _)` in state `s` claims a slot: the block is not
null, the channel is supported and the scan selects a slot. -/
def init_claims {W : Type} (P : Platform W) (s : State W)
    (p_params : Option app_dma_params_t) : Bool :=
  match p_params with
  | none => false
  | some p =>
    P.IS_DMA_ALL_INSTANCE p.channel_number && (init_scan s.s_dma_env p.channel_number).isSome

/-! ## Sample collaborators and sample inputs -/

/-- A sample set of collaborators without hidden hardware state: channels 0..7 are
supported, `hal_dma_init` leaves the handle READY, `hal_dma_deinit` leaves it RESET,
`hal_dma_start_it` starts a transfer on a READY handle (BUSY) and refuses otherwise,
the interrupt service completes the transfer, the reported state is the handle's. -/
def sample_platform : Platform Unit :=
  { IS_DMA_ALL_INSTANCE := fun ch => decide (ch < 8),
    DMA_CHANNEL_NEG1 := 4294967295,
    HAL_OK := 0,
    HAL_ERROR := 1,
    APP_DRV_SUCCESS := 0,
    APP_DRV_ERR_INVALID_ID := 8,
    APP_DRV_ERR_INVALID_PARAM := 4,
    FLASH_PROTECT_PRIORITY := false,
    hal_dma_init := fun w h => (0, { h with state := hal_dma_state_t.HAL_DMA_STATE_READY }, w),
    hal_dma_deinit := fun w h => (0, { h with state := hal_dma_state_t.HAL_DMA_STATE_RESET }, w),
    hal_dma_get_state := fun _ h => h.state,
    hal_dma_suspend_reg := fun w h => (h, w),
    hal_dma_resume_reg := fun w h => (h, w),
    hal_dma_start_it := fun w h _ _ _ =>
      if h.state = hal_dma_state_t.HAL_DMA_STATE_READY then
        (0, { h with state := hal_dma_state_t.HAL_DMA_STATE_BUSY }, w)
      else (2, h, w),
    hal_dma_irq_handler := fun w h => ({ h with state := hal_dma_state_t.HAL_DMA_STATE_READY }, w),
    pwr_register_sleep_cb := fun w => (0, w),
    pwr_unregister_sleep_cb := fun w _ => w }

/-- The sample collaborators, except that `hal_dma_init` rejects the transfer
configuration `0` with `HAL_ERROR` and leaves the handle as it found it. -/
def strict_platform : Platform Unit :=
  { sample_platform with
    hal_dma_init := fun w h =>
      if h.init = 0 then (1, h, w)
      else (0, { h with state := hal_dma_state_t.HAL_DMA_STATE_READY }, w) }

/-- A slot that is ACTIVE on channel `ch` with HAL state `st`. -/
def active_env (ch : dma_channel_t) (st : hal_dma_state_t) : dma_env_t :=
  { dma_state := app_dma_state_t.APP_DMA_ACTIVITY,
    handle :=
      { channel := ch, init := 1, state := st,
        xfer_tfr_callback := some xfer_callback_t.dma_tfr_callback,
        xfer_error_callback := some xfer_callback_t.dma_err_callback,
        xfer_abort_callback := none },
    evt_handler := none }

/-- A full table: slots 0..6 ACTIVE on channels 0..6, slot 7 ACTIVE on channel 6
as well; channel 7 is bound to no slot. -/
def full_state : State Unit :=
  { s_sleep_cb_registered_flag := true,
    s_dma_env := fun i => active_env (min i 6) hal_dma_state_t.HAL_DMA_STATE_READY,
    s_dma_pwr_id := 0,
    irq_enabled := true,
    hw := (),
    trace := [] }

/-- The table after allocating channels 0 and 1 and starting a transfer on slot 1
with the sample collaborators: slot 0 is ACTIVE and READY, slot 1 ACTIVE and BUSY. -/
def busy_state : State Unit :=
  run sample_platform (init_state ())
    [Op.app_dma_init (some ⟨0, 1⟩) none, Op.app_dma_init (some ⟨1, 1⟩) none,
     Op.app_dma_start 1 4096 8192 64]

/-- The table after allocating channels 0 and 1 and releasing slot 0 with the
sample collaborators: slot 0 is INVALID, slot 1 is ACTIVE on channel 1. -/
def freed_below_state : State Unit :=
  run sample_platform (init_state ())
    [Op.app_dma_init (some ⟨0, 1⟩) none, Op.app_dma_init (some ⟨1, 1⟩) none,
     Op.app_dma_deinit 0]

/-- The table after allocating channels 0 and 1, starting a transfer on slot 1 and
releasing slot 0 with the sample collaborators: slot 0 is INVALID, slot 1 is ACTIVE
on channel 1 and BUSY. -/
def busy_above_state : State Unit :=
  run sample_platform (init_state ())
    [Op.app_dma_init (some ⟨0, 1⟩) none, Op.app_dma_init (some ⟨1, 1⟩) none,
     Op.app_dma_start 1 4096 8192 64, Op.app_dma_deinit 0]

/-- A table with two owners on one channel: slot 0 and slot 7 are both ACTIVE on
channel 6, with event handlers 11 and 12; the other slots are INVALID. -/
def two_owner_state : State Unit :=
  { s_sleep_cb_registered_flag := true,
    s_dma_env := fun i =>
      if i = 0 then
        { active_env 6 hal_dma_state_t.HAL_DMA_STATE_READY with evt_handler := some 11 }
      else if i = 7 then
        { active_env 6 hal_dma_state_t.HAL_DMA_STATE_READY with evt_handler := some 12 }
      else zero_env,
    s_dma_pwr_id := 0,
    irq_enabled := true,
    hw := (),
    trace := [] }

end AppDma

/-!
# Microsecond and millisecond delays (gr55xx_delay.h)

`delay_us` turns the requested time into a number of core cycles and polls the DWT
cycle counter until that many cycles have elapsed; `delay_ms` calls `delay_us`.
-/

namespace Delay

/-- Range of `uint32_t`: 2^32. -/
def UINT32_RANGE : Nat := 4294967296

/-- The table `clocks[]` of `delay_us`: the system clock in MHz for each value of
the clock selection field. -/
def clocks : List Nat := [64, 48, 16, 24, 16, 32]

/-- The local `cycles` of `delay_us`: `number_of_us * clocks[sel]` in `uint32_t`
arithmetic, where `sel` is the value of `AON->PWR_RET01 & AON_PWR_REG01_SYS_CLK_SEL`;
`none` when `sel` is outside the table. -/
def delay_us_cycles (sel number_of_us : Nat) : Option Nat :=
  match clocks[sel]? with
  | none => none
  | some clock => some ((number_of_us * clock) % UINT32_RANGE)

/-- The loop `while ((DWT->CYCCNT - cyccnt_initial) < cycles) {}` for at most `fuel`
polls, starting with the counter at `cyccnt`; the counter is a `uint32_t` that
advances by one between two polls.  The result is the counter value at which the
loop exits. -/
def wait_loop (cycles cyccnt_initial : Nat) : Nat → Nat → Option Nat
  | 0, _ => none
  | fuel + 1, cyccnt =>
    if (cyccnt + UINT32_RANGE - cyccnt_initial) % UINT32_RANGE < cycles then
      wait_loop cycles cyccnt_initial fuel ((cyccnt + 1) % UINT32_RANGE)
    else some cyccnt

/-- The function `delay_us(number_of_us)` with clock selection `sel`, started with
the cycle counter at `cyccnt`: the counter value on return (`DEMCR` and `CTRL` are
saved on entry and restored on exit).  `none` when `sel` is outside the table or
the loop has not exited after `fuel` polls. -/
def delay_us (sel number_of_us fuel cyccnt : Nat) : Option Nat :=
  match delay_us_cycles sel number_of_us with
  | none => none
  | some cycles =>
    if number_of_us = 0 then some cyccnt
    else wait_loop cycles cyccnt fuel cyccnt

/-- The cycles `delay_ms(number_of_ms)` asks for: those of
`delay_us(1000 * number_of_ms)`, the product taken in `uint32_t` arithmetic. -/
def delay_ms_cycles (sel number_of_ms : Nat) : Option Nat :=
  delay_us_cycles sel ((1000 * number_of_ms) % UINT32_RANGE)

/-- The function `delay_ms(number_of_ms)`: a call of `delay_us`. -/
def delay_ms (sel number_of_ms fuel cyccnt : Nat) : Option Nat :=
  delay_us sel ((1000 * number_of_ms) % UINT32_RANGE) fuel cyccnt

end Delay

/-!
# Alert Notification Service (ans.c)

The service keeps, in `s_ans_env`, the categories the application supports, the
client configuration of each connection and the categories the client enabled
through the control point.  The constants of `ans.h` and of the BLE headers, and
the GATT server, are outside `ans.c` and are taken as a parameter (`Env`).
-/

namespace Ans

/-- Range of `uint16_t`: 2^16. -/
def UINT16_RANGE : Nat := 65536

/-- Index of the New Alert value in the attribute table (the enumeration at the top
of `ans.c`: `ANS_IDX_SVC` is 0). -/
def ANS_IDX_NEWS_ALERT_VAL : Nat := 4

/-- Initial value of `s_ans_char_mask`. -/
def s_ans_char_mask : Nat := 0x1fff

/-- Event kinds the control-point handler uses, of `ans_evt_type_t`. -/
inductive ans_evt_type_t where
  | ANS_EVT_INVALID
  | ANS_EVT_NEW_ALERT_IMME_NTF_REQ
  | ANS_EVT_Unread_ALERT_IMME_NTF_REQ
  deriving DecidableEq, Repr

/-- Event handed to the application, `ans_evt_t`. -/
structure ans_evt_t where
  evt_type : ans_evt_type_t
  conn_idx : Nat
  cat_ids : Nat
  deriving DecidableEq, Repr

/-- The fields of `ans_init_t` the service uses; `evt_handler` is a function
pointer, `none` is `NULL`; the two masks are `uint16_t`. -/
structure ans_init_t where
  evt_handler : Option Nat
  sup_new_alert_cat : Nat
  sup_unread_alert_sta : Nat

/-- The service environment, `struct ans_env_t`. -/
structure ans_env_t where
  ans_init : ans_init_t
  start_hdl : Nat
  new_alert_ntf_cfg : Nat → Nat
  unread_alert_sta_ntf_cfg : Nat → Nat
  ntf_new_alert_cfg : Nat
  ntf_unread_alert_cfg : Nat

/-- Control-point command, `ans_ctrl_pt_t`: two bytes of the written value. -/
structure ans_ctrl_pt_t where
  cmd_id : Nat
  cat_id : Nat
  deriving DecidableEq, Repr

/-- New Alert value, `ans_new_alert_t`: category, number of alerts, text bytes (by
index) and text length. -/
structure ans_new_alert_t where
  cat_id : Nat
  alert_num : Nat
  str_info : Nat → Nat
  length : Nat

/-- A call from the service into a collaborator. -/
inductive Call where
  | evt_handler (h : Nat) (evt : ans_evt_t)
  | ble_gatts_noti_ind (conn_idx handle : Nat) (value : List Nat)
  deriving DecidableEq, Repr

/-- Everything `ans.c` uses that is declared outside it: the enumerators and
constants of the missing headers, the handle lookup and the GATT notification. -/
structure Env where
  ANS_CTRL_PT_EN_NEW_INC_ALERT_NTF : Nat
  ANS_CTRL_PT_EN_UNREAD_CAT_STA_NTF : Nat
  ANS_CTRL_PT_DIS_NEW_INC_ALERT_NTF : Nat
  ANS_CTRL_PT_DIS_UNREAD_CAT_STA_NTF : Nat
  ANS_CTRL_PT_NTF_NEW_INC_ALERT_IMME : Nat
  ANS_CTRL_PT_NTF_UNREAD_CAT_STA_IMME : Nat
  ANS_CAT_ID_INSTANT_MES : Nat
  ANS_CAT_ID_ALL : Nat
  ANS_UTF_8_STR_LEN_MAX : Nat
  /-- Size in bytes of the New Alert value, the size of the local buffer of
  `ans_new_alert_send`. -/
  ANS_NEWS_ALERT_VAL_LEN : Nat
  PRF_CLI_START_NTF : Nat
  SDK_ERR_INVALID_PARAM : Nat
  SDK_ERR_NTF_DISABLED : Nat
  prf_find_handle_by_idx : Nat → Nat → Nat → Nat
  ble_gatts_noti_ind : Nat → Nat → List Nat → Nat

/-- The static `s_ans_env` and the record of collaborator calls. -/
structure State where
  s_ans_env : ans_env_t
  trace : List Call

/-- Store `p_buff[i] = v` through the `uint8_t` pointer `p_buff`: the value is
converted to a byte. -/
def store (p_buff : Nat → Nat) (i v : Nat) : Nat → Nat :=
  fun k => if k = i then v % 256 else p_buff k

/-- The bounded copy `memcpy_s(dest, destsz, src, count)` of the C library, on a
destination that starts at offset `off` of `p_buff`: `count` bytes are copied when
`count` does not exceed `destsz`, nothing is copied otherwise. -/
def memcpy_s (p_buff : Nat → Nat) (off destsz : Nat) (src : Nat → Nat) (count : Nat) :
    Nat → Nat :=
  if count ≤ destsz then
    fun k => if off ≤ k ∧ k < off + count then src (k - off) % 256 else p_buff k
  else p_buff

/-- The encoder `ans_new_alert_encode(p_new_alert, p_buff)`, where `p_buff` points
to an array of `cap` bytes: the encoded length (a `uint16_t`) and the array after
the call.  The function is handed the pointer alone and writes the two header bytes
and the `length` text bytes whatever the size of the array (`memcpy_s` is told the
destination holds `length` bytes); the result is `none` when one of these writes
falls outside the array, which is undefined behaviour.  The test `ret < 0` on the
`uint16_t` result of `memcpy_s` never holds, so otherwise the length is returned. -/
def ans_new_alert_encode (p_new_alert : ans_new_alert_t) (cap : Nat) (p_buff : Nat → Nat) :
    Option (Nat × (Nat → Nat)) :=
  if 0 < cap then
    let b1 := store p_buff 0 p_new_alert.cat_id
    if 1 < cap then
      let b2 := store b1 1 p_new_alert.alert_num
      if 0 < p_new_alert.length then
        if 2 + p_new_alert.length ≤ cap then
          some ((2 + p_new_alert.length) % UINT16_RANGE,
            memcpy_s b2 2 p_new_alert.length p_new_alert.str_info p_new_alert.length)
        else none
      else some ((2 + p_new_alert.length) % UINT16_RANGE, b2)
    else none
  else none

/-- The checks and the notification of `ans_new_alert_send`, which follow the call
of the encoder; `enc` is the encoder's result. -/
def ans_new_alert_send_checked (E : Env) (s : State) (conn_idx : Nat)
    (p_new_alert : ans_new_alert_t) (enc : Nat × (Nat → Nat)) : Nat × State :=
  if E.ANS_UTF_8_STR_LEN_MAX < p_new_alert.length then (E.SDK_ERR_INVALID_PARAM, s)
  else if E.ANS_CAT_ID_INSTANT_MES < p_new_alert.cat_id then (E.SDK_ERR_INVALID_PARAM, s)
  else if s.s_ans_env.ans_init.sup_new_alert_cat &&& (1 <<< p_new_alert.cat_id) = 0 then
    (E.SDK_ERR_INVALID_PARAM, s)
  else if E.PRF_CLI_START_NTF ≠ s.s_ans_env.new_alert_ntf_cfg conn_idx then
    (E.SDK_ERR_NTF_DISABLED, s)
  else if s.s_ans_env.ntf_new_alert_cfg &&& (1 <<< p_new_alert.cat_id) = 0 then
    (E.SDK_ERR_NTF_DISABLED, s)
  else
    let handle := E.prf_find_handle_by_idx ANS_IDX_NEWS_ALERT_VAL s.s_ans_env.start_hdl
      s_ans_char_mask
    let value := (List.range enc.1).map enc.2
    (E.ble_gatts_noti_ind conn_idx handle value,
      { s with trace := s.trace ++ [Call.ble_gatts_noti_ind conn_idx handle value] })

/-- The sender `ans_new_alert_send(conn_idx, p_new_alert)`; `stack` is the content
of the local array `encoded_new_alert[ANS_NEWS_ALERT_VAL_LEN]` on entry.  The value
is encoded into the local array first and the checks follow; the notification
carries the first `length` bytes of the array.  The result is `none` when the
encoder writes outside the local array (undefined behaviour). -/
def ans_new_alert_send (E : Env) (s : State) (stack : Nat → Nat) (conn_idx : Nat)
    (p_new_alert : ans_new_alert_t) : Option (Nat × State) :=
  match ans_new_alert_encode p_new_alert E.ANS_NEWS_ALERT_VAL_LEN stack with
  | none => none
  | some enc => some (ans_new_alert_send_checked E s conn_idx p_new_alert enc)

/-- The support check `ans_ctrl_pt_sup_check(p_ctrl_pt)`. -/
def ans_ctrl_pt_sup_check (E : Env) (env : ans_env_t) (p_ctrl_pt : ans_ctrl_pt_t) : Bool :=
  if E.ANS_CTRL_PT_NTF_UNREAD_CAT_STA_IMME < p_ctrl_pt.cmd_id then false
  else if E.ANS_CAT_ID_INSTANT_MES < p_ctrl_pt.cat_id ∧ E.ANS_CAT_ID_ALL ≠ p_ctrl_pt.cat_id then
    false
  else if E.ANS_CTRL_PT_EN_NEW_INC_ALERT_NTF = p_ctrl_pt.cmd_id ∧
      E.ANS_CTRL_PT_DIS_NEW_INC_ALERT_NTF = p_ctrl_pt.cmd_id ∧
      E.ANS_CTRL_PT_NTF_NEW_INC_ALERT_IMME = p_ctrl_pt.cmd_id then
    if E.ANS_CAT_ID_ALL = p_ctrl_pt.cat_id then
      if env.ans_init.sup_new_alert_cat = 0 then false else true
    else if env.ans_init.sup_new_alert_cat &&& (1 <<< p_ctrl_pt.cat_id) = 0 then false
    else true
  else
    if p_ctrl_pt.cat_id = E.ANS_CAT_ID_ALL then
      if env.ans_init.sup_new_alert_cat = 0 then false else true
    else if env.ans_init.sup_unread_alert_sta &&& (1 <<< p_ctrl_pt.cat_id) = 0 then false
    else true

/-- Compound assignment `cfg |= x` on a `uint16_t`. -/
def or_assign (cfg x : Nat) : Nat := (cfg ||| x) % UINT16_RANGE

/-- Compound assignment `cfg &= ~x` on a `uint16_t`. -/
def and_not_assign (cfg x : Nat) : Nat := cfg % UINT16_RANGE &&& (65535 ^^^ (x % UINT16_RANGE))

/-- The end of `ans_ctrl_pt_handler`: the event is handed to the application when
its kind is not `ANS_EVT_INVALID` and a handler is registered. -/
def deliver (s : State) (event : ans_evt_t) : State :=
  if event.evt_type ≠ ans_evt_type_t.ANS_EVT_INVALID then
    match s.s_ans_env.ans_init.evt_handler with
    | none => s
    | some h => { s with trace := s.trace ++ [Call.evt_handler h event] }
  else s

/-- The handler `ans_ctrl_pt_handler(conn_idx, p_ctrl_pt)`; the `switch` on the
command id is the chain of tests below, in the order of its `case` labels.  The
field `cat_ids` of an event that is not delivered is left as 0. -/
def ans_ctrl_pt_handler (E : Env) (s : State) (conn_idx : Nat) (p_ctrl_pt : ans_ctrl_pt_t) :
    State :=
  let env := s.s_ans_env
  let invalid : ans_evt_t :=
    { evt_type := ans_evt_type_t.ANS_EVT_INVALID, conn_idx := conn_idx, cat_ids := 0 }
  if p_ctrl_pt.cmd_id = E.ANS_CTRL_PT_EN_NEW_INC_ALERT_NTF then
    let cfg :=
      if E.ANS_CAT_ID_ALL = p_ctrl_pt.cat_id then
        or_assign env.ntf_new_alert_cfg env.ans_init.sup_new_alert_cat
      else or_assign env.ntf_new_alert_cfg (1 <<< p_ctrl_pt.cat_id)
    deliver { s with s_ans_env := { env with ntf_new_alert_cfg := cfg } } invalid
  else if p_ctrl_pt.cmd_id = E.ANS_CTRL_PT_EN_UNREAD_CAT_STA_NTF then
    let cfg :=
      if E.ANS_CAT_ID_ALL = p_ctrl_pt.cat_id then
        or_assign env.ntf_unread_alert_cfg env.ans_init.sup_new_alert_cat
      else or_assign env.ntf_unread_alert_cfg (1 <<< p_ctrl_pt.cat_id)
    deliver { s with s_ans_env := { env with ntf_unread_alert_cfg := cfg } } invalid
  else if p_ctrl_pt.cmd_id = E.ANS_CTRL_PT_DIS_NEW_INC_ALERT_NTF then
    let cfg :=
      if E.ANS_CAT_ID_ALL = p_ctrl_pt.cat_id then
        and_not_assign env.ntf_new_alert_cfg env.ans_init.sup_new_alert_cat
      else and_not_assign env.ntf_new_alert_cfg (1 <<< p_ctrl_pt.cat_id)
    deliver { s with s_ans_env := { env with ntf_new_alert_cfg := cfg } } invalid
  else if p_ctrl_pt.cmd_id = E.ANS_CTRL_PT_DIS_UNREAD_CAT_STA_NTF then
    let cfg :=
      if E.ANS_CAT_ID_ALL = p_ctrl_pt.cat_id then
        and_not_assign env.ntf_unread_alert_cfg env.ans_init.sup_unread_alert_sta
      else and_not_assign env.ntf_unread_alert_cfg (1 <<< p_ctrl_pt.cat_id)
    deliver { s with s_ans_env := { env with ntf_unread_alert_cfg := cfg } } invalid
  else if p_ctrl_pt.cmd_id = E.ANS_CTRL_PT_NTF_NEW_INC_ALERT_IMME then
    let cat_ids :=
      if E.ANS_CAT_ID_ALL = p_ctrl_pt.cat_id then env.ntf_new_alert_cfg
      else (1 <<< p_ctrl_pt.cat_id) % UINT16_RANGE
    deliver s
      { evt_type := ans_evt_type_t.ANS_EVT_NEW_ALERT_IMME_NTF_REQ, conn_idx := conn_idx,
        cat_ids := cat_ids }
  else if p_ctrl_pt.cmd_id = E.ANS_CTRL_PT_NTF_UNREAD_CAT_STA_IMME then
    let cat_ids :=
      if E.ANS_CAT_ID_ALL = p_ctrl_pt.cat_id then env.ntf_unread_alert_cfg
      else (1 <<< p_ctrl_pt.cat_id) % UINT16_RANGE
    deliver s
      { evt_type := ans_evt_type_t.ANS_EVT_Unread_ALERT_IMME_NTF_REQ, conn_idx := conn_idx,
        cat_ids := cat_ids }
  else deliver s invalid

/-! ## Sample constants and sample inputs -/

/-- A sample environment: the command ids 0..5 and the category ids 0..9 and 0xFF of
the Alert Notification Service, a text of at most 18 bytes in a value of 20 bytes,
the notification bit of a client configuration; the GATT server accepts every notification. -/
def sample_env : Env :=
  { ANS_CTRL_PT_EN_NEW_INC_ALERT_NTF := 0,
    ANS_CTRL_PT_EN_UNREAD_CAT_STA_NTF := 1,
    ANS_CTRL_PT_DIS_NEW_INC_ALERT_NTF := 2,
    ANS_CTRL_PT_DIS_UNREAD_CAT_STA_NTF := 3,
    ANS_CTRL_PT_NTF_NEW_INC_ALERT_IMME := 4,
    ANS_CTRL_PT_NTF_UNREAD_CAT_STA_IMME := 5,
    ANS_CAT_ID_INSTANT_MES := 9,
    ANS_CAT_ID_ALL := 255,
    ANS_UTF_8_STR_LEN_MAX := 18,
    ANS_NEWS_ALERT_VAL_LEN := 20,
    PRF_CLI_START_NTF := 1,
    SDK_ERR_INVALID_PARAM := 1,
    SDK_ERR_NTF_DISABLED := 14,
    prf_find_handle_by_idx := fun idx start_hdl _ => start_hdl + idx,
    ble_gatts_noti_ind := fun _ _ _ => 0 }

/-- A service state: category 0 (simple alert) alone is supported for New Alert,
category 1 (email) alone for Unread Alert Status; connection 0 enabled the New
Alert notification and category 0. -/
def sample_state : State :=
  { s_ans_env :=
      { ans_init := { evt_handler := some 7, sup_new_alert_cat := 1, sup_unread_alert_sta := 2 },
        start_hdl := 16,
        new_alert_ntf_cfg := fun c => if c = 0 then 1 else 0,
        unread_alert_sta_ntf_cfg := fun _ => 0,
        ntf_new_alert_cfg := 1,
        ntf_unread_alert_cfg := 0 },
    trace := [] }

/-- A New Alert value: category 0, 3 alerts, the two-byte text "Hi". -/
def sample_alert : ans_new_alert_t :=
  { cat_id := 0, alert_num := 3, str_info := fun k => if k = 0 then 72 else 105, length := 2 }

/-- The sample alert with the category id 300, which does not fit a byte. -/
def wide_alert : ans_new_alert_t :=
  { sample_alert with cat_id := 300 }

/-- The sample alert with a text length of 19, one more than
`ANS_UTF_8_STR_LEN_MAX` of the sample environment. -/
def overlong_alert : ans_new_alert_t :=
  { sample_alert with length := 19 }

end Ans

namespace AppDma

/-! ## Auxiliary lemmas -/

theorem init_result_neg_one {W : Type} (P : Platform W) (status : hal_status_t) :
    init_result P status (-1) = -1 := by
  unfold init_result
  split <;> rfl

theorem first_from_none_iff (p : Nat → Bool) (n i : Nat) :
    first_from p n i = none ↔ ∀ j, i ≤ j → j < i + n → p j = false := by
  induction n generalizing i with
  | zero =>
    constructor
    · intro _ j h1 h2
      omega
    · intro _
      rfl
  | succ n ih =>
    unfold first_from
    by_cases hp : p i = true
    · simp only [hp, if_true]
      constructor
      · intro h
        cases h
      · intro h
        have := h i (Nat.le_refl i) (by omega)
        rw [hp] at this
        cases this
    · simp only [hp, if_false, Bool.false_eq_true]
      rw [ih (i + 1)]
      constructor
      · intro h j h1 h2
        by_cases hji : j = i
        · subst hji
          simpa using hp
        · exact h j (by omega) (by omega)
      · intro h j h1 h2
        exact h j (by omega) (by omega)

theorem first_from_some {p : Nat → Bool} {n i k : Nat} (h : first_from p n i = some k) :
    i ≤ k ∧ k < i + n ∧ p k = true ∧ ∀ j, i ≤ j → j < k → p j = false := by
  induction n generalizing i with
  | zero => cases h
  | succ n ih =>
    unfold first_from at h
    by_cases hp : p i = true
    · simp only [hp, if_true, Option.some.injEq] at h
      subst h
      exact ⟨Nat.le_refl _, by omega, hp, fun j h1 h2 => by omega⟩
    · simp only [hp, if_false, Bool.false_eq_true] at h
      obtain ⟨h1, h2, h3, h4⟩ := ih h
      refine ⟨by omega, by omega, h3, ?_⟩
      intro j hj1 hj2
      by_cases hji : j = i
      · subst hji
        simpa using hp
      · exact h4 j (by omega) hj2

/-! ## Rejected requests leave the state alone -/

/-- C7: for an id that is negative, at least `DMA_HANDLE_MAX`, or names an INVALID
slot, `app_dma_deinit` returns `APP_DRV_ERR_INVALID_ID` and the state it returns is
the state it was given: slots, flag, interrupt-line bit, hardware state and the
record of collaborator calls are all as before. -/
theorem app_dma_deinit_invalid_id {W : Type} (P : Platform W) (s : State W) (id : dma_id_t)
    (h : id < 0 ∨ id ≥ 8 ∨
      (s.s_dma_env id.toNat).dma_state = app_dma_state_t.APP_DMA_INVALID) :
    app_dma_deinit P s id = (P.APP_DRV_ERR_INVALID_ID, s) := by
  unfold app_dma_deinit
  rw [if_pos]
  simpa [DMA_HANDLE_MAX] using h

/-- C7, at concrete inputs: the ids `-1`, `8` and `3` on the start-up table. -/
theorem app_dma_deinit_invalid_id_witness :
    app_dma_deinit sample_platform (init_state ()) (-1) = (8, init_state ()) ∧
    app_dma_deinit sample_platform (init_state ()) 8 = (8, init_state ()) ∧
    app_dma_deinit sample_platform (init_state ()) 3 = (8, init_state ()) :=
  ⟨app_dma_deinit_invalid_id sample_platform (init_state ()) (-1) (Or.inl (by decide)),
   app_dma_deinit_invalid_id sample_platform (init_state ()) 8 (Or.inr (Or.inl (by decide))),
   app_dma_deinit_invalid_id sample_platform (init_state ()) 3 (Or.inr (Or.inr rfl))⟩

/-- C8: when all `DMA_HANDLE_MAX` slots are ACTIVE and none holds the requested
channel, `app_dma_init` returns `-1` and the state it returns is the state it was
given (every slot and the registered flag included). -/
theorem app_dma_init_exhausted {W : Type} (P : Platform W) (s : State W)
    (p : app_dma_params_t) (evt_handler : app_dma_evt_handler_t)
    (hall : ∀ i, i < DMA_HANDLE_MAX →
      (s.s_dma_env i).dma_state = app_dma_state_t.APP_DMA_ACTIVITY)
    (hno : ∀ i, i < DMA_HANDLE_MAX → (s.s_dma_env i).handle.channel ≠ p.channel_number) :
    app_dma_init P s (some p) evt_handler = (-1, s) := by
  have hscan : init_scan s.s_dma_env p.channel_number = none := by
    unfold init_scan
    have hnone : first_from
        (fun i => decide ((s.s_dma_env i).dma_state = app_dma_state_t.APP_DMA_INVALID) ||
          decide ((s.s_dma_env i).handle.channel = p.channel_number))
        DMA_HANDLE_MAX 0 = none := by
      rw [first_from_none_iff]
      intro j _ hj
      have hj8 : j < DMA_HANDLE_MAX := by omega
      simp [hall j hj8, hno j hj8]
    rw [hnone]
  unfold app_dma_init
  simp only [hscan, init_result_neg_one]
  split <;> rfl

/-- C8, at a concrete input: the full table with channel 7 unbound, channel 7
requested (a supported channel). -/
theorem app_dma_init_exhausted_witness :
    sample_platform.IS_DMA_ALL_INSTANCE 7 = true ∧
    app_dma_init sample_platform full_state (some ⟨7, 1⟩) (some 5) = (-1, full_state) :=
  ⟨rfl, app_dma_init_exhausted sample_platform full_state ⟨7, 1⟩ (some 5)
    (by decide) (by decide)⟩

/-- C9: for a null parameter block, and for a channel outside the supported set
(`IS_DMA_ALL_INSTANCE` is false), `app_dma_init` returns `-1` and the state it
returns is the state it was given: no slot is modified, nothing is registered and
the interrupt line is not touched. -/
theorem app_dma_init_rejects {W : Type} (P : Platform W) (s : State W)
    (p_params : Option app_dma_params_t) (evt_handler : app_dma_evt_handler_t)
    (h : p_params = none ∨
      ∃ p, p_params = some p ∧ P.IS_DMA_ALL_INSTANCE p.channel_number = false) :
    app_dma_init P s p_params evt_handler = (-1, s) := by
  rcases h with h | ⟨p, hp, hch⟩
  · subst h
    simp only [app_dma_init, init_result_neg_one]
  · subst hp
    simp only [app_dma_init, hch, if_true]

/-- C9, at concrete inputs: a null block, and channel 8 with the sample platform
(which supports channels 0..7), on the start-up table. -/
theorem app_dma_init_rejects_witness :
    app_dma_init sample_platform (init_state ()) none (some 5) = (-1, init_state ()) ∧
    app_dma_init sample_platform (init_state ()) (some ⟨8, 1⟩) (some 5) = (-1, init_state ()) :=
  ⟨app_dma_init_rejects sample_platform (init_state ()) none (some 5) (Or.inl rfl),
   app_dma_init_rejects sample_platform (init_state ()) (some ⟨8, 1⟩) (some 5)
    (Or.inr ⟨⟨8, 1⟩, rfl, rfl⟩)⟩

/-! ## Effect of the operations on occupancy and on the flag -/

@[simp] theorem set_env_apply (env : Nat → dma_env_t) (i : Nat) (e : dma_env_t) (j : Nat) :
    set_env env i e j = if j = i then e else env j := rfl

@[simp] theorem register_sleep_cb_env {W : Type} (P : Platform W) (s : State W) :
    (register_sleep_cb P s).s_dma_env = s.s_dma_env := by
  unfold register_sleep_cb
  split <;> rfl

@[simp] theorem register_sleep_cb_flag {W : Type} (P : Platform W) (s : State W) :
    (register_sleep_cb P s).s_sleep_cb_registered_flag = true := by
  unfold register_sleep_cb
  split
  · rfl
  · simpa using ‹¬ s.s_sleep_cb_registered_flag = false›

@[simp] theorem init_prepare_dma_state {W : Type} (P : Platform W) (s : State W)
    (p : app_dma_params_t) (e : app_dma_evt_handler_t) (i j : Nat) :
    ((init_prepare P s p e i).s_dma_env j).dma_state =
      if j = i then app_dma_state_t.APP_DMA_ACTIVITY else (s.s_dma_env j).dma_state := by
  simp only [init_prepare, hal_nvic_enable_irq, hal_nvic_clear_pending_irq,
    register_sleep_cb_env, set_env_apply]
  split <;> simp

@[simp] theorem init_prepare_flag {W : Type} (P : Platform W) (s : State W)
    (p : app_dma_params_t) (e : app_dma_evt_handler_t) (i : Nat) :
    (init_prepare P s p e i).s_sleep_cb_registered_flag = true := by
  simp only [init_prepare, hal_nvic_enable_irq, hal_nvic_clear_pending_irq,
    register_sleep_cb_flag]

/-- The state `app_dma_init` returns when its scan selects slot `i`. -/
theorem app_dma_init_claimed {W : Type} (P : Platform W) (s : State W)
    (p : app_dma_params_t) (e : app_dma_evt_handler_t) (i : Nat)
    (hch : P.IS_DMA_ALL_INSTANCE p.channel_number = true)
    (hscan : init_scan s.s_dma_env p.channel_number = some i) :
    (app_dma_init P s (some p) e).2 =
      { init_prepare P s p e i with
        s_dma_env := set_env (init_prepare P s p e i).s_dma_env i
          { (init_prepare P s p e i).s_dma_env i with
            handle := (P.hal_dma_init (init_prepare P s p e i).hw
              ((init_prepare P s p e i).s_dma_env i).handle).2.1 },
        hw := (P.hal_dma_init (init_prepare P s p e i).hw
              ((init_prepare P s p e i).s_dma_env i).handle).2.2,
        trace := (init_prepare P s p e i).trace ++ [Call.hal_dma_init i] } := by
  simp only [app_dma_init, hch, hscan, Bool.true_eq_false, if_false]

/-- The state `app_dma_init` returns when its scan selects no slot, the block is
null or the channel is not supported: the state it was given. -/
theorem app_dma_init_unclaimed {W : Type} (P : Platform W) (s : State W)
    (p_params : Option app_dma_params_t) (e : app_dma_evt_handler_t)
    (h : ∀ p, p_params = some p → P.IS_DMA_ALL_INSTANCE p.channel_number = true →
      init_scan s.s_dma_env p.channel_number = none) :
    (app_dma_init P s p_params e).2 = s := by
  cases p_params with
  | none => rfl
  | some p =>
    by_cases hch : P.IS_DMA_ALL_INSTANCE p.channel_number = true
    · simp only [app_dma_init, hch, h p rfl hch, Bool.true_eq_false, if_false]
    · have hch2 : P.IS_DMA_ALL_INSTANCE p.channel_number = false := by simpa using hch
      simp only [app_dma_init, hch2, if_true]

/-! ## A free slot below an existing binding shadows it -/

/-- C1: the sequence allocate channel 0, allocate channel 1, release slot 0 leaves
slot 0 INVALID below slot 1, which is ACTIVE on channel 1; allocating channel 1
again succeeds with id 0 and ends with slots 0 and 1 both ACTIVE and both holding
channel 1: the scan takes the INVALID slot 0 before it reaches slot 1, which is
bound to the requested channel. -/
theorem alloc_release_alloc_duplicates_channel :
    (freed_below_state.s_dma_env 0).dma_state = app_dma_state_t.APP_DMA_INVALID ∧
    (freed_below_state.s_dma_env 1).dma_state = app_dma_state_t.APP_DMA_ACTIVITY ∧
    (freed_below_state.s_dma_env 1).handle.channel = 1 ∧
    (app_dma_init sample_platform freed_below_state (some ⟨1, 1⟩) none).1 = 0 ∧
    ((app_dma_init sample_platform freed_below_state (some ⟨1, 1⟩) none).2.s_dma_env 0).dma_state
      = app_dma_state_t.APP_DMA_ACTIVITY ∧
    ((app_dma_init sample_platform freed_below_state (some ⟨1, 1⟩) none).2.s_dma_env 1).dma_state
      = app_dma_state_t.APP_DMA_ACTIVITY ∧
    ((app_dma_init sample_platform freed_below_state
      (some ⟨1, 1⟩) none).2.s_dma_env 0).handle.channel = 1 ∧
    ((app_dma_init sample_platform freed_below_state
      (some ⟨1, 1⟩) none).2.s_dma_env 1).handle.channel = 1 := by
  decide

/-- C2: after allocate channel 0, allocate channel 1, start a transfer on slot 1
and release slot 0, slot 1 is ACTIVE, bound to channel 1 and BUSY while slot 0 is
INVALID; allocating channel 1 again does not fail: it returns id 0 and claims
slot 0, leaving two ACTIVE slots on channel 1. -/
theorem busy_binding_shadowed_by_free_slot :
    (busy_above_state.s_dma_env 1).dma_state = app_dma_state_t.APP_DMA_ACTIVITY ∧
    (busy_above_state.s_dma_env 1).handle.channel = 1 ∧
    (busy_above_state.s_dma_env 1).handle.state = hal_dma_state_t.HAL_DMA_STATE_BUSY ∧
    (busy_above_state.s_dma_env 0).dma_state = app_dma_state_t.APP_DMA_INVALID ∧
    init_scan busy_above_state.s_dma_env 1 = some 0 ∧
    (app_dma_init sample_platform busy_above_state (some ⟨1, 1⟩) none).1 = 0 ∧
    ((app_dma_init sample_platform busy_above_state (some ⟨1, 1⟩) none).2.s_dma_env 0).dma_state
      = app_dma_state_t.APP_DMA_ACTIVITY ∧
    ((app_dma_init sample_platform busy_above_state
      (some ⟨1, 1⟩) none).2.s_dma_env 0).handle.channel = 1 ∧
    ((app_dma_init sample_platform busy_above_state (some ⟨1, 1⟩) none).2.s_dma_env 1).dma_state
      = app_dma_state_t.APP_DMA_ACTIVITY := by
  decide

/-! ## A failing HAL initialisation -/

/-- C3: on the start-up table with `hal_dma_init` rejecting the configuration, the
scan selects slot 0 (INVALID before the call), the HAL returns a status other than
`HAL_OK` and the call returns `-1`, yet slot 0 is ACTIVE, not INVALID, on return:
the slot the call had claimed is not rolled back, and the caller is given no id to
release it with. -/
theorem app_dma_init_rollback_counterexample :
    ((init_state ()).s_dma_env 0).dma_state = app_dma_state_t.APP_DMA_INVALID ∧
    init_scan (init_state ()).s_dma_env 0 = some 0 ∧
    init_hal_status strict_platform (init_state ()) ⟨0, 0⟩ none 0 ≠ strict_platform.HAL_OK ∧
    (app_dma_init strict_platform (init_state ()) (some ⟨0, 0⟩) none).1 = -1 ∧
    ((app_dma_init strict_platform (init_state ()) (some ⟨0, 0⟩) none).2.s_dma_env 0).dma_state
      ≠ app_dma_state_t.APP_DMA_INVALID := by
  decide

/-- The same on every table: when the scan of `app_dma_init` selects slot `i` and
`hal_dma_init` returns a status other than `HAL_OK`, the call returns `-1` and
leaves slot `i` ACTIVE. -/
theorem app_dma_init_hal_failure {W : Type} (P : Platform W) (s : State W)
    (p : app_dma_params_t) (evt_handler : app_dma_evt_handler_t) (i : Nat)
    (hch : P.IS_DMA_ALL_INSTANCE p.channel_number = true)
    (hscan : init_scan s.s_dma_env p.channel_number = some i)
    (hfail : init_hal_status P s p evt_handler i ≠ P.HAL_OK) :
    (app_dma_init P s (some p) evt_handler).1 = -1 ∧
    ((app_dma_init P s (some p) evt_handler).2.s_dma_env i).dma_state
      = app_dma_state_t.APP_DMA_ACTIVITY := by
  constructor
  · unfold init_hal_status at hfail
    simp only [app_dma_init, hch, hscan, Bool.true_eq_false, if_false]
    unfold init_result
    rw [if_pos]
    exact fun h => hfail h.symm
  · rw [app_dma_init_claimed P s p evt_handler i hch hscan]
    simp

/-- The same at a concrete input: the start-up table, channel 0 with the
configuration the strict HAL rejects. -/
theorem app_dma_init_hal_failure_witness :
    (app_dma_init strict_platform (init_state ()) (some ⟨0, 0⟩) (some 5)).1 = -1 ∧
    ((app_dma_init strict_platform (init_state ()) (some ⟨0, 0⟩) (some 5)).2.s_dma_env 0).dma_state
      = app_dma_state_t.APP_DMA_ACTIVITY :=
  app_dma_init_hal_failure strict_platform (init_state ()) ⟨0, 0⟩ (some 5) 0
    (by decide) (by decide) (by decide)

/-! ## The power callbacks, the transfer start and the interrupt service keep occupancy -/

theorem prepare_loop_frame {W : Type} (P : Platform W) (n i : Nat) (s : State W) :
    (∀ j, ((prepare_loop P n i s).2.s_dma_env j).dma_state = (s.s_dma_env j).dma_state) ∧
    (prepare_loop P n i s).2.s_sleep_cb_registered_flag = s.s_sleep_cb_registered_flag := by
  induction n generalizing i s with
  | zero => exact ⟨fun _ => rfl, rfl⟩
  | succ n ih =>
    unfold prepare_loop
    split
    · dsimp only
      split
      · exact ⟨fun _ => rfl, rfl⟩
      · refine ⟨fun j => ?_, ?_⟩
        · rw [(ih _ _).1 j]
          simp only [set_env_apply]
          split
          · subst_vars
            rfl
          · rfl
        · rw [(ih _ _).2]
    · exact ih _ _

theorem wake_loop_frame {W : Type} (P : Platform W) (n i : Nat) (find : Bool) (s : State W) :
    (∀ j, ((wake_loop P n i find s).2.s_dma_env j).dma_state = (s.s_dma_env j).dma_state) ∧
    (wake_loop P n i find s).2.s_sleep_cb_registered_flag = s.s_sleep_cb_registered_flag := by
  induction n generalizing i find s with
  | zero => exact ⟨fun _ => rfl, rfl⟩
  | succ n ih =>
    unfold wake_loop
    split
    · refine ⟨fun j => ?_, ?_⟩
      · rw [(ih _ _ _).1 j]
        simp only [set_env_apply]
        split
        · subst_vars
          rfl
        · rfl
      · rw [(ih _ _ _).2]
    · exact ih _ _ _

theorem irq_loop_frame {W : Type} (P : Platform W) (n i : Nat) (s : State W) :
    (∀ j, ((irq_loop P n i s).s_dma_env j).dma_state = (s.s_dma_env j).dma_state) ∧
    (irq_loop P n i s).s_sleep_cb_registered_flag = s.s_sleep_cb_registered_flag := by
  induction n generalizing i s with
  | zero => exact ⟨fun _ => rfl, rfl⟩
  | succ n ih =>
    unfold irq_loop
    split
    · refine ⟨fun j => ?_, ?_⟩
      · rw [(ih _ _).1 j]
        simp only [set_env_apply]
        split
        · subst_vars
          rfl
        · rfl
      · rw [(ih _ _).2]
    · exact ih _ _

theorem dma_prepare_for_sleep_frame {W : Type} (P : Platform W) (s : State W) :
    (∀ j, ((dma_prepare_for_sleep P s).2.s_dma_env j).dma_state = (s.s_dma_env j).dma_state) ∧
    (dma_prepare_for_sleep P s).2.s_sleep_cb_registered_flag = s.s_sleep_cb_registered_flag :=
  prepare_loop_frame P DMA_HANDLE_MAX 0 s

theorem dma_wake_up_ind_frame {W : Type} (P : Platform W) (s : State W) :
    (∀ j, ((dma_wake_up_ind P s).s_dma_env j).dma_state = (s.s_dma_env j).dma_state) ∧
    (dma_wake_up_ind P s).s_sleep_cb_registered_flag = s.s_sleep_cb_registered_flag := by
  unfold dma_wake_up_ind
  have h := wake_loop_frame P DMA_HANDLE_MAX 0 false s
  dsimp only
  split
  · exact ⟨fun j => by simpa [hal_nvic_enable_irq, hal_nvic_clear_pending_irq] using h.1 j,
      by simpa [hal_nvic_enable_irq, hal_nvic_clear_pending_irq] using h.2⟩
  · exact h

theorem DMA_IRQHandler_frame {W : Type} (P : Platform W) (s : State W) :
    (∀ j, ((DMA_IRQHandler P s).s_dma_env j).dma_state = (s.s_dma_env j).dma_state) ∧
    (DMA_IRQHandler P s).s_sleep_cb_registered_flag = s.s_sleep_cb_registered_flag := by
  unfold DMA_IRQHandler
  cases hf : P.FLASH_PROTECT_PRIORITY
  · simpa using irq_loop_frame P DMA_HANDLE_MAX 0 s
  · have h := irq_loop_frame P DMA_HANDLE_MAX 0
      { s with trace := s.trace ++ [Call.platform_interrupt_protection_push] }
    simpa using h

theorem app_dma_start_frame {W : Type} (P : Platform W) (s : State W) (id : dma_id_t)
    (a b n : Nat) :
    (∀ j, ((app_dma_start P s id a b n).2.s_dma_env j).dma_state = (s.s_dma_env j).dma_state) ∧
    (app_dma_start P s id a b n).2.s_sleep_cb_registered_flag = s.s_sleep_cb_registered_flag := by
  unfold app_dma_start
  split
  · exact ⟨fun _ => rfl, rfl⟩
  · dsimp only
    split
    · refine ⟨fun j => ?_, rfl⟩
      simp only [set_env_apply]
      split
      · subst_vars
        rfl
      · rfl
    · refine ⟨fun j => ?_, rfl⟩
      simp only [set_env_apply]
      split
      · subst_vars
        rfl
      · rfl

/-! ## The registered flag tracks occupancy -/

theorem flag_tracks_active_of_frame {W : Type} {s t : State W}
    (h : (∀ j, (t.s_dma_env j).dma_state = (s.s_dma_env j).dma_state) ∧
      t.s_sleep_cb_registered_flag = s.s_sleep_cb_registered_flag)
    (hs : flag_tracks_active s) : flag_tracks_active t := by
  unfold flag_tracks_active at *
  rw [h.2, hs]
  constructor
  · rintro ⟨i, hi, ha⟩
    exact ⟨i, hi, by rw [h.1 i]; exact ha⟩
  · rintro ⟨i, hi, ha⟩
    exact ⟨i, hi, by rw [← h.1 i]; exact ha⟩

theorem init_scan_lt {env : Nat → dma_env_t} {ch : dma_channel_t} {i : Nat}
    (h : init_scan env ch = some i) : i < DMA_HANDLE_MAX := by
  unfold init_scan at h
  split at h
  · cases h
  · rename_i k hk
    split at h
    · cases h
    · cases h
      have := (first_from_some hk).2.1
      omega

theorem app_dma_init_flag_tracks_active {W : Type} (P : Platform W) (s : State W)
    (p_params : Option app_dma_params_t) (e : app_dma_evt_handler_t)
    (hs : flag_tracks_active s) : flag_tracks_active (app_dma_init P s p_params e).2 := by
  by_cases hc : ∃ p, p_params = some p ∧ P.IS_DMA_ALL_INSTANCE p.channel_number = true ∧
      ∃ i, init_scan s.s_dma_env p.channel_number = some i
  · obtain ⟨p, hp, hch, i, hscan⟩ := hc
    subst hp
    rw [app_dma_init_claimed P s p e i hch hscan]
    unfold flag_tracks_active
    simp only [init_prepare_flag, true_iff]
    exact ⟨i, init_scan_lt hscan, by simp⟩
  · rw [app_dma_init_unclaimed]
    · exact hs
    · intro p hp hch
      cases hsc : init_scan s.s_dma_env p.channel_number with
      | none => rfl
      | some i => exact absurd ⟨p, hp, hch, i, hsc⟩ hc

theorem app_dma_deinit_flag_tracks_active {W : Type} (P : Platform W) (s : State W)
    (id : dma_id_t) (hs : flag_tracks_active s) :
    flag_tracks_active (app_dma_deinit P s id).2 := by
  unfold app_dma_deinit
  split
  · exact hs
  · rename_i hid
    have hid0 : @LE.le Int _ 0 id := by
      have h0 : ¬ id < 0 := fun h => hid (Or.inl h)
      simpa using h0
    have hid8 : @LT.lt Int _ id 8 := by
      have h8 : ¬ id ≥ Int.ofNat DMA_HANDLE_MAX := fun h => hid (Or.inr (Or.inl h))
      simpa [DMA_HANDLE_MAX] using h8
    have hact : (s.s_dma_env id.toNat).dma_state = app_dma_state_t.APP_DMA_ACTIVITY := by
      cases hst : (s.s_dma_env id.toNat).dma_state with
      | APP_DMA_INVALID => exact absurd (Or.inr (Or.inr hst)) hid
      | APP_DMA_ACTIVITY => rfl
    have hlt : id.toNat < DMA_HANDLE_MAX := by
      show id.toNat < 8
      omega
    have hflag : s.s_sleep_cb_registered_flag = true := hs.2 ⟨id.toNat, hlt, hact⟩
    dsimp only
    split
    · rename_i k hk
      unfold flag_tracks_active
      dsimp only
      rw [hflag]
      simp only [true_iff]
      have hk2 := first_from_some hk
      exact ⟨k, by unfold DMA_HANDLE_MAX at *; omega, by simpa using hk2.2.2.1⟩
    · rename_i hnone
      unfold first_active at hnone
      rw [first_from_none_iff] at hnone
      unfold flag_tracks_active hal_nvic_disable_irq
      dsimp only
      constructor
      · intro h
        cases h
      · rintro ⟨j, hj, ha⟩
        have := hnone j (Nat.zero_le j) (by omega)
        simp only [decide_eq_false_iff_not] at this
        exact absurd ha this

theorem step_flag_tracks_active {W : Type} (P : Platform W) (s : State W) (op : Op)
    (hs : flag_tracks_active s) : flag_tracks_active (step P s op) := by
  cases op with
  | app_dma_init p e => exact app_dma_init_flag_tracks_active P s p e hs
  | app_dma_deinit id => exact app_dma_deinit_flag_tracks_active P s id hs
  | app_dma_start id a b n => exact flag_tracks_active_of_frame (app_dma_start_frame P s id a b n) hs
  | dma_prepare_for_sleep => exact flag_tracks_active_of_frame (dma_prepare_for_sleep_frame P s) hs
  | dma_sleep_canceled => exact hs
  | dma_wake_up_ind => exact flag_tracks_active_of_frame (dma_wake_up_ind_frame P s) hs
  | DMA_IRQHandler => exact flag_tracks_active_of_frame (DMA_IRQHandler_frame P s) hs

theorem run_flag_tracks_active {W : Type} (P : Platform W) (ops : List Op) (s : State W)
    (hs : flag_tracks_active s) : flag_tracks_active (run P s ops) := by
  induction ops generalizing s with
  | nil => exact hs
  | cons op ops ih => exact ih (step P s op) (step_flag_tracks_active P s op hs)

/-- C4: in every state reached from the start-up state by any sequence of
`app_dma_init`, `app_dma_deinit`, `app_dma_start`, the three power callbacks and
`DMA_IRQHandler`, whatever the collaborators do, `s_sleep_cb_registered_flag` is
true if and only if at least one slot of the table is ACTIVE. -/
theorem registered_flag_iff_some_slot_active {W : Type} (P : Platform W) (w0 : W)
    (ops : List Op) :
    (run P (init_state w0) ops).s_sleep_cb_registered_flag = true ↔
      ∃ i, i < DMA_HANDLE_MAX ∧
        ((run P (init_state w0) ops).s_dma_env i).dma_state
          = app_dma_state_t.APP_DMA_ACTIVITY := by
  apply run_flag_tracks_active
  unfold flag_tracks_active init_state zero_env
  simp

/-! ## Sleep preparation -/

theorem prepare_loop_veto {W : Type} (P : Platform W) (n i : Nat) (s : State W)
    (h : (prepare_loop P n i s).1 = false) :
    ∃ k t, i ≤ k ∧ k < i + n ∧
      (s.s_dma_env k).dma_state = app_dma_state_t.APP_DMA_ACTIVITY ∧
      (prepare_loop P n i s).2.trace = s.trace ++ t ++ [Call.hal_dma_get_state k] ∧
      (∀ j, Call.hal_dma_suspend_reg j ∈ t ↔
        (i ≤ j ∧ j < k ∧ (s.s_dma_env j).dma_state = app_dma_state_t.APP_DMA_ACTIVITY)) ∧
      ∀ j, t.count (Call.hal_dma_suspend_reg j) ≤ 1 := by
  induction n generalizing i s with
  | zero => simp [prepare_loop] at h
  | succ n ih =>
    unfold prepare_loop at h ⊢
    by_cases hact : (s.s_dma_env i).dma_state = app_dma_state_t.APP_DMA_ACTIVITY
    · simp only [hact, if_true] at h ⊢
      by_cases hbad : P.hal_dma_get_state s.hw (s.s_dma_env i).handle
            ≠ hal_dma_state_t.HAL_DMA_STATE_RESET ∧
          P.hal_dma_get_state s.hw (s.s_dma_env i).handle
            ≠ hal_dma_state_t.HAL_DMA_STATE_READY
      · rw [if_pos hbad]
        refine ⟨i, [], Nat.le_refl i, by omega, hact, by simp, ?_, by simp⟩
        intro j
        constructor
        · intro hj
          cases hj
        · rintro ⟨h1, h2, _⟩
          omega
      · rw [if_neg hbad] at h ⊢
        obtain ⟨k, t, hk1, hk2, hka, htr, hmem, hcnt⟩ := ih _ _ h
        have hki : k ≠ i := by omega
        refine ⟨k, [Call.hal_dma_get_state i, Call.hal_dma_suspend_reg i] ++ t, by omega,
          by omega, ?_, ?_, ?_, ?_⟩
        · simpa [hki] using hka
        · rw [htr]
          simp
        · intro j
          have hm := hmem j
          by_cases hji : j = i
          · subst hji
            simp only [List.cons_append, List.nil_append, List.mem_cons, reduceCtorEq,
              true_or, or_true, true_iff]
            exact ⟨Nat.le_refl _, by omega, hact⟩
          · have hne : Call.hal_dma_suspend_reg j ≠ Call.hal_dma_suspend_reg i := by
              intro hc
              injection hc with hc
              exact hji hc
            simp only [List.cons_append, List.nil_append, List.mem_cons, reduceCtorEq,
              false_or, hne, hm, set_env_apply, hji, if_false]
            constructor
            · rintro ⟨h1, h2, h3⟩
              exact ⟨by omega, h2, h3⟩
            · rintro ⟨h1, h2, h3⟩
              exact ⟨by omega, h2, h3⟩
        · intro j
          by_cases hji : j = i
          · subst hji
            have hnot : Call.hal_dma_suspend_reg j ∉ t := by
              intro hin
              have := ((hmem j).1 hin).1
              omega
            simp [List.count_cons, List.count_eq_zero_of_not_mem hnot]
          · have hne : Call.hal_dma_suspend_reg i ≠ Call.hal_dma_suspend_reg j := by
              intro hc
              injection hc with hc
              exact hji hc.symm
            have := hcnt j
            simpa [List.count_cons, hne] using this
    · simp only [hact, if_false] at h ⊢
      obtain ⟨k, t, hk1, hk2, hka, htr, hmem, hcnt⟩ := ih _ _ h
      refine ⟨k, t, by omega, by omega, hka, htr, ?_, hcnt⟩
      intro j
      rw [hmem j]
      constructor
      · rintro ⟨h1, h2, h3⟩
        exact ⟨by omega, h2, h3⟩
      · rintro ⟨h1, h2, h3⟩
        refine ⟨?_, h2, h3⟩
        by_cases hji : j = i
        · subst hji
          exact absurd h3 hact
        · omega

/-- C5, as stated, fails: with slot 0 ACTIVE and READY and slot 1 ACTIVE and BUSY,
`dma_prepare_for_sleep` returns false after it has called `hal_dma_suspend_reg` on
slot 0. -/
theorem prepare_veto_after_suspend_counterexample :
    (busy_state.s_dma_env 0).dma_state = app_dma_state_t.APP_DMA_ACTIVITY ∧
    (busy_state.s_dma_env 1).dma_state = app_dma_state_t.APP_DMA_ACTIVITY ∧
    (busy_state.s_dma_env 1).handle.state = hal_dma_state_t.HAL_DMA_STATE_BUSY ∧
    (dma_prepare_for_sleep sample_platform busy_state).1 = false ∧
    (dma_prepare_for_sleep sample_platform busy_state).2.trace =
      busy_state.trace ++
        [Call.hal_dma_get_state 0, Call.hal_dma_suspend_reg 0, Call.hal_dma_get_state 1] := by
  decide

/-- C5, amended: if `dma_prepare_for_sleep` returns false, the veto comes from an
ACTIVE slot `k` (the last call made is `hal_dma_get_state` on slot `k`), and the
calls made before that contain `hal_dma_suspend_reg` exactly once for each ACTIVE
slot below `k` and for no slot at or above `k`. -/
theorem prepare_veto_suspends_below_only {W : Type} (P : Platform W) (s : State W)
    (hveto : (dma_prepare_for_sleep P s).1 = false) :
    ∃ k t, k < DMA_HANDLE_MAX ∧
      (s.s_dma_env k).dma_state = app_dma_state_t.APP_DMA_ACTIVITY ∧
      (dma_prepare_for_sleep P s).2.trace = s.trace ++ t ++ [Call.hal_dma_get_state k] ∧
      (∀ j, Call.hal_dma_suspend_reg j ∈ t ↔
        (j < k ∧ (s.s_dma_env j).dma_state = app_dma_state_t.APP_DMA_ACTIVITY)) ∧
      ∀ j, t.count (Call.hal_dma_suspend_reg j) ≤ 1 := by
  obtain ⟨k, t, _, hk2, hka, htr, hmem, hcnt⟩ := prepare_loop_veto P DMA_HANDLE_MAX 0 s hveto
  refine ⟨k, t, by omega, hka, htr, ?_, hcnt⟩
  intro j
  rw [hmem j]
  constructor
  · rintro ⟨_, h2, h3⟩
    exact ⟨h2, h3⟩
  · rintro ⟨h2, h3⟩
    exact ⟨Nat.zero_le j, h2, h3⟩

/-- C5, amended, at a concrete input: slot 0 ACTIVE and READY, slot 1 ACTIVE and
BUSY. -/
theorem prepare_veto_suspends_below_only_witness :
    ∃ k t, k < DMA_HANDLE_MAX ∧
      (busy_state.s_dma_env k).dma_state = app_dma_state_t.APP_DMA_ACTIVITY ∧
      (dma_prepare_for_sleep sample_platform busy_state).2.trace =
        busy_state.trace ++ t ++ [Call.hal_dma_get_state k] ∧
      (∀ j, Call.hal_dma_suspend_reg j ∈ t ↔
        (j < k ∧ (busy_state.s_dma_env j).dma_state = app_dma_state_t.APP_DMA_ACTIVITY)) ∧
      ∀ j, t.count (Call.hal_dma_suspend_reg j) ≤ 1 :=
  prepare_veto_suspends_below_only sample_platform busy_state (by decide)

theorem prepare_loop_veto_iff {W : Type} (P : Platform W)
    (hsep : ∀ w h h2, P.hal_dma_get_state (P.hal_dma_suspend_reg w h).2 h2
      = P.hal_dma_get_state w h2)
    (n i : Nat) (s : State W) :
    (prepare_loop P n i s).1 = false ↔
      ∃ j, i ≤ j ∧ j < i + n ∧
        (s.s_dma_env j).dma_state = app_dma_state_t.APP_DMA_ACTIVITY ∧
        P.hal_dma_get_state s.hw (s.s_dma_env j).handle
          ≠ hal_dma_state_t.HAL_DMA_STATE_RESET ∧
        P.hal_dma_get_state s.hw (s.s_dma_env j).handle
          ≠ hal_dma_state_t.HAL_DMA_STATE_READY := by
  induction n generalizing i s with
  | zero =>
    simp only [prepare_loop, Bool.true_eq_false, false_iff, not_exists]
    intro j hj
    omega
  | succ n ih =>
    unfold prepare_loop
    by_cases hact : (s.s_dma_env i).dma_state = app_dma_state_t.APP_DMA_ACTIVITY
    · simp only [hact, if_true]
      by_cases hbad : P.hal_dma_get_state s.hw (s.s_dma_env i).handle
            ≠ hal_dma_state_t.HAL_DMA_STATE_RESET ∧
          P.hal_dma_get_state s.hw (s.s_dma_env i).handle
            ≠ hal_dma_state_t.HAL_DMA_STATE_READY
      · rw [if_pos hbad]
        simp only [true_iff]
        exact ⟨i, Nat.le_refl i, by omega, hact, hbad⟩
      · rw [if_neg hbad, ih]
        constructor
        · rintro ⟨j, h1, h2, h3, h4⟩
          have hji : j ≠ i := by omega
          simp only [set_env_apply, hji, if_false, hsep] at h3 h4
          exact ⟨j, by omega, by omega, h3, h4⟩
        · rintro ⟨j, h1, h2, h3, h4⟩
          have hji : j ≠ i := by
            intro hji
            subst hji
            exact hbad h4
          refine ⟨j, by omega, by omega, ?_⟩
          simp only [set_env_apply, hji, if_false, hsep]
          exact ⟨h3, h4⟩
    · simp only [hact, if_false]
      rw [ih]
      constructor
      · rintro ⟨j, h1, h2, h3, h4⟩
        exact ⟨j, by omega, by omega, h3, h4⟩
      · rintro ⟨j, h1, h2, h3, h4⟩
        have hji : j ≠ i := by
          intro hji
          subst hji
          exact hact h3
        exact ⟨j, by omega, by omega, h3, h4⟩

/-- C6: provided suspending a channel does not change the state the HAL reports
for a handle, `dma_prepare_for_sleep` returns false if and only if some slot of the
table is ACTIVE and the HAL reports for it a state that is neither RESET nor READY;
in particular a table whose slots are all INVALID is never vetoed. -/
theorem prepare_veto_iff_active_slot_not_idle {W : Type} (P : Platform W) (s : State W)
    (hsep : ∀ w h h2, P.hal_dma_get_state (P.hal_dma_suspend_reg w h).2 h2
      = P.hal_dma_get_state w h2) :
    ((dma_prepare_for_sleep P s).1 = false ↔
      ∃ i, i < DMA_HANDLE_MAX ∧
        (s.s_dma_env i).dma_state = app_dma_state_t.APP_DMA_ACTIVITY ∧
        P.hal_dma_get_state s.hw (s.s_dma_env i).handle
          ≠ hal_dma_state_t.HAL_DMA_STATE_RESET ∧
        P.hal_dma_get_state s.hw (s.s_dma_env i).handle
          ≠ hal_dma_state_t.HAL_DMA_STATE_READY) ∧
    ((∀ i, i < DMA_HANDLE_MAX →
        (s.s_dma_env i).dma_state = app_dma_state_t.APP_DMA_INVALID) →
      (dma_prepare_for_sleep P s).1 = true) := by
  have hiff := prepare_loop_veto_iff P hsep DMA_HANDLE_MAX 0 s
  have hmain : (dma_prepare_for_sleep P s).1 = false ↔
      ∃ i, i < DMA_HANDLE_MAX ∧
        (s.s_dma_env i).dma_state = app_dma_state_t.APP_DMA_ACTIVITY ∧
        P.hal_dma_get_state s.hw (s.s_dma_env i).handle
          ≠ hal_dma_state_t.HAL_DMA_STATE_RESET ∧
        P.hal_dma_get_state s.hw (s.s_dma_env i).handle
          ≠ hal_dma_state_t.HAL_DMA_STATE_READY := by
    unfold dma_prepare_for_sleep
    rw [hiff]
    constructor
    · rintro ⟨j, _, h2, h3⟩
      exact ⟨j, by omega, h3⟩
    · rintro ⟨j, h2, h3⟩
      exact ⟨j, Nat.zero_le j, by omega, h3⟩
  refine ⟨hmain, ?_⟩
  intro hinv
  cases hres : (dma_prepare_for_sleep P s).1 with
  | true => rfl
  | false =>
    obtain ⟨i, hi, ha, _⟩ := hmain.1 hres
    rw [hinv i hi] at ha
    cases ha

/-- C6, at concrete inputs: the table with slot 1 ACTIVE and BUSY is vetoed, the
start-up table is not. -/
theorem prepare_veto_iff_active_slot_not_idle_witness :
    ((dma_prepare_for_sleep sample_platform busy_state).1 = false ↔
      ∃ i, i < DMA_HANDLE_MAX ∧
        (busy_state.s_dma_env i).dma_state = app_dma_state_t.APP_DMA_ACTIVITY ∧
        sample_platform.hal_dma_get_state busy_state.hw (busy_state.s_dma_env i).handle
          ≠ hal_dma_state_t.HAL_DMA_STATE_RESET ∧
        sample_platform.hal_dma_get_state busy_state.hw (busy_state.s_dma_env i).handle
          ≠ hal_dma_state_t.HAL_DMA_STATE_READY) ∧
    (dma_prepare_for_sleep sample_platform (init_state ())).1 = true :=
  ⟨(prepare_veto_iff_active_slot_not_idle sample_platform busy_state (fun _ _ _ => rfl)).1,
   (prepare_veto_iff_active_slot_not_idle sample_platform (init_state ())
      (fun _ _ _ => rfl)).2 (fun _ _ => rfl)⟩

/-! ## Registration with the power manager -/

theorem reg_count_register_sleep_cb {W : Type} (P : Platform W) (s : State W) :
    reg_count (register_sleep_cb P s) =
      reg_count s + (if s.s_sleep_cb_registered_flag = false then 1 else 0) := by
  unfold register_sleep_cb reg_count
  split <;> simp

theorem reg_count_init_prepare {W : Type} (P : Platform W) (s : State W)
    (p : app_dma_params_t) (e : app_dma_evt_handler_t) (i : Nat) :
    reg_count (init_prepare P s p e i) =
      reg_count s + (if s.s_sleep_cb_registered_flag = false then 1 else 0) := by
  have h := reg_count_register_sleep_cb P
    { s with
      s_dma_env := set_env s.s_dma_env i
        { s.s_dma_env i with dma_state := app_dma_state_t.APP_DMA_ACTIVITY } }
  unfold reg_count at h ⊢
  simp only [init_prepare, hal_nvic_enable_irq, hal_nvic_clear_pending_irq, List.count_append,
    h]
  simp

theorem init_claims_iff {W : Type} (P : Platform W) (s : State W)
    (p_params : Option app_dma_params_t) :
    init_claims P s p_params = true ↔
      ∃ p i, p_params = some p ∧ P.IS_DMA_ALL_INSTANCE p.channel_number = true ∧
        init_scan s.s_dma_env p.channel_number = some i := by
  cases p_params with
  | none => simp [init_claims]
  | some p =>
    simp only [init_claims, Bool.and_eq_true, Option.isSome_iff_exists, Option.some.injEq]
    constructor
    · rintro ⟨h1, i, h2⟩
      exact ⟨p, i, rfl, h1, h2⟩
    · rintro ⟨q, i, hq, h1, h2⟩
      subst hq
      exact ⟨h1, i, h2⟩

/-- One allocation: the registration is invoked exactly when the call claims a slot
while the flag is clear, and the flag is set afterwards exactly when it was set
before or the call claims a slot. -/
theorem app_dma_init_registration {W : Type} (P : Platform W) (s : State W)
    (p_params : Option app_dma_params_t) (e : app_dma_evt_handler_t) :
    reg_count (app_dma_init P s p_params e).2 =
      reg_count s +
        (if init_claims P s p_params = true ∧ s.s_sleep_cb_registered_flag = false
          then 1 else 0) ∧
    (app_dma_init P s p_params e).2.s_sleep_cb_registered_flag =
      (s.s_sleep_cb_registered_flag || init_claims P s p_params) := by
  by_cases hc : init_claims P s p_params = true
  · obtain ⟨p, i, hp, hch, hscan⟩ := (init_claims_iff P s p_params).1 hc
    subst hp
    rw [app_dma_init_claimed P s p e i hch hscan]
    constructor
    · have h := reg_count_init_prepare P s p e i
      unfold reg_count at h ⊢
      simp only [List.count_append, h, hc, true_and]
      simp
    · simp [hc]
  · have hc2 : init_claims P s p_params = false := by simpa using hc
    rw [app_dma_init_unclaimed]
    · simp [hc2]
    · intro p hp hch
      cases hsc : init_scan s.s_dma_env p.channel_number with
      | none => rfl
      | some i => exact absurd ((init_claims_iff P s p_params).2 ⟨p, i, hp, hch, hsc⟩) hc

theorem app_dma_init_success_claims {W : Type} (P : Platform W) (s : State W)
    (p_params : Option app_dma_params_t) (e : app_dma_evt_handler_t)
    (h : (app_dma_init P s p_params e).1 ≠ -1) : init_claims P s p_params = true := by
  cases p_params with
  | none => exact absurd (by simp only [app_dma_init, init_result_neg_one]) h
  | some p =>
    by_cases hch : P.IS_DMA_ALL_INSTANCE p.channel_number = true
    · cases hsc : init_scan s.s_dma_env p.channel_number with
      | none =>
        exact absurd (by simp only [app_dma_init, hch, hsc, init_result_neg_one,
          Bool.true_eq_false, if_false]) h
      | some i => simp [init_claims, hch, hsc]
    · have hch2 : P.IS_DMA_ALL_INSTANCE p.channel_number = false := by simpa using hch
      exact absurd (by simp only [app_dma_init, hch2, if_true]) h

theorem run_init_snoc {W : Type} (P : Platform W) (s : State W) (reqs : List init_request)
    (r : init_request) :
    run_init P s (reqs ++ [r]) = (app_dma_init P (run_init P s reqs) r.1 r.2).2 := by
  simp [run_init, List.foldl_append]

/-- After any sequence of allocations from the start-up state: either some call of
the sequence claimed a slot, the flag is set and the registration was invoked once,
or no call claimed a slot, the flag is clear and it was never invoked. -/
theorem run_init_registration {W : Type} (P : Platform W) (w0 : W)
    (reqs : List init_request) :
    ((∃ pre q post, reqs = pre ++ q :: post ∧
        init_claims P (run_init P (init_state w0) pre) q.1 = true) ∧
      (run_init P (init_state w0) reqs).s_sleep_cb_registered_flag = true ∧
      reg_count (run_init P (init_state w0) reqs) = 1) ∨
    ((¬ ∃ pre q post, reqs = pre ++ q :: post ∧
        init_claims P (run_init P (init_state w0) pre) q.1 = true) ∧
      (run_init P (init_state w0) reqs).s_sleep_cb_registered_flag = false ∧
      reg_count (run_init P (init_state w0) reqs) = 0) := by
  induction reqs using List.reverseRecOn with
  | nil =>
    right
    refine ⟨?_, rfl, rfl⟩
    rintro ⟨pre, q, post, h, _⟩
    cases pre <;> cases h
  | append_singleton reqs r ih =>
    rw [run_init_snoc]
    have hstep := app_dma_init_registration P (run_init P (init_state w0) reqs) r.1 r.2
    rcases ih with ⟨⟨pre, q, post, hsplit, hcl⟩, hflag, hcnt⟩ | ⟨hno, hflag, hcnt⟩
    · left
      refine ⟨⟨pre, q, post ++ [r], by simp [hsplit], hcl⟩, ?_, ?_⟩
      · rw [hstep.2, hflag]
        rfl
      · rw [hstep.1, hcnt, hflag]
        simp
    · by_cases hc : init_claims P (run_init P (init_state w0) reqs) r.1 = true
      · left
        refine ⟨⟨reqs, r, [], rfl, hc⟩, ?_, ?_⟩
        · rw [hstep.2, hc]
          simp
        · rw [hstep.1, hcnt, hflag]
          simp [hc]
      · right
        refine ⟨?_, ?_, ?_⟩
        · rintro ⟨pre, q, post, hsplit, hcl⟩
          rcases List.eq_nil_or_concat post with hpost | ⟨post2, r2, hpost⟩
          · subst hpost
            have h1 : reqs ++ [r] = pre ++ [q] := hsplit
            obtain ⟨h2, h3⟩ := List.append_inj' h1 rfl
            subst h2
            have h4 : r = q := by simpa using h3
            subst h4
            exact hc hcl
          · subst hpost
            have h1 : reqs ++ [r] = (pre ++ q :: post2) ++ [r2] := by simp [hsplit]
            obtain ⟨h2, _⟩ := List.append_inj' h1 rfl
            exact hno ⟨pre, q, post2, h2, hcl⟩
        · rw [hstep.2, hflag]
          simpa using hc
        · rw [hstep.1, hcnt, hflag]
          simp [hc]

/-- C10, as stated, fails: from the start-up state, a first allocation whose HAL
initialisation is rejected returns `-1` yet has invoked `pwr_register_sleep_cb`;
the second allocation is the first successful one (id 0) and does not invoke it. -/
theorem registration_in_failed_allocation_counterexample :
    reg_count (init_state ()) = 0 ∧
    (app_dma_init strict_platform (init_state ()) (some ⟨0, 0⟩) none).1 = -1 ∧
    reg_count (app_dma_init strict_platform (init_state ()) (some ⟨0, 0⟩) none).2 = 1 ∧
    (app_dma_init strict_platform
      (app_dma_init strict_platform (init_state ()) (some ⟨0, 0⟩) none).2
      (some ⟨0, 1⟩) none).1 = 0 ∧
    reg_count (app_dma_init strict_platform
      (app_dma_init strict_platform (init_state ()) (some ⟨0, 0⟩) none).2
      (some ⟨0, 1⟩) none).2 = 1 := by
  decide

/-- C10, amended: from the start-up state, after any sequence `reqs` of
`app_dma_init` calls with no other call in between, `pwr_register_sleep_cb` has
been invoked exactly once if some call of the sequence claimed a slot (in
particular if some call succeeded) and never otherwise; and a further call `r`
invokes it exactly when it claims a slot and no earlier call had (the count was
0), whether or not its HAL initialisation then succeeds. -/
theorem registration_once_at_first_claim {W : Type} (P : Platform W) (w0 : W)
    (reqs : List init_request) (r : init_request) :
    ((∃ pre q post, reqs = pre ++ q :: post ∧
        init_claims P (run_init P (init_state w0) pre) q.1 = true) →
      reg_count (run_init P (init_state w0) reqs) = 1) ∧
    ((¬ ∃ pre q post, reqs = pre ++ q :: post ∧
        init_claims P (run_init P (init_state w0) pre) q.1 = true) →
      reg_count (run_init P (init_state w0) reqs) = 0) ∧
    ((∃ pre q post, reqs = pre ++ q :: post ∧
        (app_dma_init P (run_init P (init_state w0) pre) q.1 q.2).1 ≠ -1) →
      reg_count (run_init P (init_state w0) reqs) = 1) ∧
    reg_count (app_dma_init P (run_init P (init_state w0) reqs) r.1 r.2).2 =
      reg_count (run_init P (init_state w0) reqs) +
        (if init_claims P (run_init P (init_state w0) reqs) r.1 = true ∧
            reg_count (run_init P (init_state w0) reqs) = 0 then 1 else 0) := by
  have hinv := run_init_registration P w0 reqs
  have hstep := (app_dma_init_registration P (run_init P (init_state w0) reqs) r.1 r.2).1
  have h1 : (∃ pre q post, reqs = pre ++ q :: post ∧
        init_claims P (run_init P (init_state w0) pre) q.1 = true) →
      reg_count (run_init P (init_state w0) reqs) = 1 := by
    intro hex
    rcases hinv with ⟨_, _, hcnt⟩ | ⟨hno, _, _⟩
    · exact hcnt
    · exact absurd hex hno
  refine ⟨h1, ?_, ?_, ?_⟩
  · intro hno
    rcases hinv with ⟨hex, _, _⟩ | ⟨_, _, hcnt⟩
    · exact absurd hex hno
    · exact hcnt
  · rintro ⟨pre, q, post, hsplit, hok⟩
    exact h1 ⟨pre, q, post, hsplit, app_dma_init_success_claims P _ q.1 q.2 hok⟩
  · rw [hstep]
    rcases hinv with ⟨_, hflag, hcnt⟩ | ⟨_, hflag, hcnt⟩
    · simp [hflag, hcnt]
    · simp [hflag, hcnt]

/-! ## Release of an accepted id -/

theorem deinit_guard_false {W : Type} (s : State W) (id : Int) (h0 : 0 ≤ id) (h8 : id < 8)
    (hst : (s.s_dma_env id.toNat).dma_state ≠ app_dma_state_t.APP_DMA_INVALID) :
    ¬ (id < 0 ∨ id ≥ Int.ofNat DMA_HANDLE_MAX ∨
      (s.s_dma_env id.toNat).dma_state = app_dma_state_t.APP_DMA_INVALID) := by
  rintro (h | h | h)
  · omega
  · have h2 : (8 : Int) ≤ id := by simpa [DMA_HANDLE_MAX] using h
    omega
  · exact hst h

/-- The table `app_dma_deinit` leaves for an accepted id: slot `id` is INVALID, its
handle is the one `hal_dma_deinit` returned with the channel overwritten, every
other entry is as before. -/
theorem app_dma_deinit_accepted_env {W : Type} (P : Platform W) (s : State W) (id : Int)
    (h0 : 0 ≤ id) (h8 : id < 8)
    (hst : (s.s_dma_env id.toNat).dma_state ≠ app_dma_state_t.APP_DMA_INVALID) :
    (app_dma_deinit P s id).1 = P.APP_DRV_SUCCESS ∧
    (app_dma_deinit P s id).2.s_dma_env =
      set_env s.s_dma_env id.toNat
        { s.s_dma_env id.toNat with
          dma_state := app_dma_state_t.APP_DMA_INVALID,
          handle :=
            { (P.hal_dma_deinit s.hw (s.s_dma_env id.toNat).handle).2.1 with
              channel := P.DMA_CHANNEL_NEG1 } } := by
  unfold app_dma_deinit
  rw [if_neg (deinit_guard_false s id h0 h8 hst)]
  dsimp only
  split
  · exact ⟨rfl, rfl⟩
  · exact ⟨rfl, rfl⟩

/-- C11: for an id `app_dma_deinit` accepts, if no slot is ACTIVE once slot `id` has
been released the call invokes `pwr_unregister_sleep_cb` (with the stored token),
clears the flag and disables the interrupt line; if some slot is still ACTIVE it
makes no call besides `hal_dma_deinit` and leaves the flag, the token and the
interrupt line as they were. -/
theorem app_dma_deinit_unregisters_iff_last {W : Type} (P : Platform W) (s : State W)
    (id : Int) (h0 : 0 ≤ id) (h8 : id < 8)
    (hst : (s.s_dma_env id.toNat).dma_state ≠ app_dma_state_t.APP_DMA_INVALID) :
    ((∀ j, j < DMA_HANDLE_MAX →
        ((app_dma_deinit P s id).2.s_dma_env j).dma_state
          ≠ app_dma_state_t.APP_DMA_ACTIVITY) →
      (app_dma_deinit P s id).2.trace =
        s.trace ++ [Call.hal_dma_deinit id.toNat, Call.pwr_unregister_sleep_cb s.s_dma_pwr_id,
          Call.hal_nvic_disable_irq] ∧
      (app_dma_deinit P s id).2.s_sleep_cb_registered_flag = false) ∧
    ((∃ j, j < DMA_HANDLE_MAX ∧
        ((app_dma_deinit P s id).2.s_dma_env j).dma_state
          = app_dma_state_t.APP_DMA_ACTIVITY) →
      (app_dma_deinit P s id).2.trace = s.trace ++ [Call.hal_dma_deinit id.toNat] ∧
      (app_dma_deinit P s id).2.s_sleep_cb_registered_flag = s.s_sleep_cb_registered_flag ∧
      (app_dma_deinit P s id).2.s_dma_pwr_id = s.s_dma_pwr_id ∧
      (app_dma_deinit P s id).2.irq_enabled = s.irq_enabled) := by
  unfold app_dma_deinit
  rw [if_neg (deinit_guard_false s id h0 h8 hst)]
  dsimp only
  split
  · rename_i k hk
    have hk2 := first_from_some hk
    constructor
    · intro hnone
      exact absurd (by simpa using hk2.2.2.1) (hnone k (by unfold DMA_HANDLE_MAX at *; omega))
    · intro _
      exact ⟨rfl, rfl, rfl, rfl⟩
  · rename_i hnone
    unfold first_active at hnone
    rw [first_from_none_iff] at hnone
    constructor
    · intro _
      refine ⟨?_, rfl⟩
      simp [hal_nvic_disable_irq]
    · rintro ⟨j, hj, ha⟩
      have := hnone j (Nat.zero_le j) (by omega)
      simp only [decide_eq_false_iff_not] at this
      exact absurd ha this

/-- C11, at concrete inputs: releasing slot 0 of the table with slots 0 and 1 ACTIVE
keeps the registration; releasing slot 1 of the table where only slot 1 is ACTIVE
unregisters. -/
theorem app_dma_deinit_unregisters_iff_last_witness :
    ((app_dma_deinit sample_platform busy_state 0).2.trace =
        busy_state.trace ++ [Call.hal_dma_deinit 0] ∧
      (app_dma_deinit sample_platform busy_state 0).2.s_sleep_cb_registered_flag = true) ∧
    ((app_dma_deinit sample_platform freed_below_state 1).2.trace =
        freed_below_state.trace ++ [Call.hal_dma_deinit 1, Call.pwr_unregister_sleep_cb 0,
          Call.hal_nvic_disable_irq] ∧
      (app_dma_deinit sample_platform freed_below_state 1).2.s_sleep_cb_registered_flag
        = false) :=
  ⟨⟨((app_dma_deinit_unregisters_iff_last sample_platform busy_state 0 (by decide) (by decide)
        (by decide)).2 ⟨1, by decide, by decide⟩).1,
    ((app_dma_deinit_unregisters_iff_last sample_platform busy_state 0 (by decide) (by decide)
        (by decide)).2 ⟨1, by decide, by decide⟩).2.1⟩,
   (app_dma_deinit_unregisters_iff_last sample_platform freed_below_state 1 (by decide)
      (by decide) (by decide)).1 (by decide)⟩

/-- C18: for an id `app_dma_deinit` accepts, the call returns `APP_DRV_SUCCESS`, its
first collaborator call is `hal_dma_deinit` on slot `id`, slot `id` is INVALID
afterwards with the handle `hal_dma_deinit` returned and the channel set to
`(dma_channel_t)(-1)`, and every other slot (occupancy, handle with its channel,
event handler) is as before. -/
theorem app_dma_deinit_releases_only_named_slot {W : Type} (P : Platform W) (s : State W)
    (id : Int) (h0 : 0 ≤ id) (h8 : id < 8)
    (hst : (s.s_dma_env id.toNat).dma_state ≠ app_dma_state_t.APP_DMA_INVALID) :
    (app_dma_deinit P s id).1 = P.APP_DRV_SUCCESS ∧
    (∃ rest, (app_dma_deinit P s id).2.trace
      = s.trace ++ Call.hal_dma_deinit id.toNat :: rest) ∧
    ((app_dma_deinit P s id).2.s_dma_env id.toNat).dma_state
      = app_dma_state_t.APP_DMA_INVALID ∧
    ((app_dma_deinit P s id).2.s_dma_env id.toNat).handle =
      { (P.hal_dma_deinit s.hw (s.s_dma_env id.toNat).handle).2.1 with
        channel := P.DMA_CHANNEL_NEG1 } ∧
    ((app_dma_deinit P s id).2.s_dma_env id.toNat).handle.channel = P.DMA_CHANNEL_NEG1 ∧
    ∀ j, j ≠ id.toNat → (app_dma_deinit P s id).2.s_dma_env j = s.s_dma_env j := by
  obtain ⟨hret, henv⟩ := app_dma_deinit_accepted_env P s id h0 h8 hst
  refine ⟨hret, ?_, ?_, ?_, ?_, ?_⟩
  · unfold app_dma_deinit
    rw [if_neg (deinit_guard_false s id h0 h8 hst)]
    dsimp only
    split
    · exact ⟨[], rfl⟩
    · exact ⟨[Call.pwr_unregister_sleep_cb s.s_dma_pwr_id, Call.hal_nvic_disable_irq],
        by simp [hal_nvic_disable_irq]⟩
  · rw [henv]
    simp
  · rw [henv]
    simp
  · rw [henv]
    simp
  · intro j hj
    rw [henv]
    simp [hj]

/-- C18, at a concrete input: releasing slot 1 of the table with slots 0 and 1
ACTIVE. -/
theorem app_dma_deinit_releases_only_named_slot_witness :
    (app_dma_deinit sample_platform busy_state 1).1 = sample_platform.APP_DRV_SUCCESS ∧
    ((app_dma_deinit sample_platform busy_state 1).2.s_dma_env 1).dma_state
      = app_dma_state_t.APP_DMA_INVALID ∧
    ((app_dma_deinit sample_platform busy_state 1).2.s_dma_env 1).handle.channel
      = 4294967295 ∧
    (app_dma_deinit sample_platform busy_state 1).2.s_dma_env 0 = busy_state.s_dma_env 0 :=
  ⟨(app_dma_deinit_releases_only_named_slot sample_platform busy_state 1 (by decide)
      (by decide) (by decide)).1,
   (app_dma_deinit_releases_only_named_slot sample_platform busy_state 1 (by decide)
      (by decide) (by decide)).2.2.1,
   (app_dma_deinit_releases_only_named_slot sample_platform busy_state 1 (by decide)
      (by decide) (by decide)).2.2.2.2.1,
   (app_dma_deinit_releases_only_named_slot sample_platform busy_state 1 (by decide)
      (by decide) (by decide)).2.2.2.2.2 0 (by decide)⟩

/-! ## Transfer start -/

theorem start_guard_iff {W : Type} (s : State W) (id : Int) :
    (id < 0 ∨ id ≥ Int.ofNat DMA_HANDLE_MAX ∨
      (s.s_dma_env id.toNat).dma_state = app_dma_state_t.APP_DMA_INVALID) ↔
    (id < 0 ∨ 8 ≤ id ∨
      (s.s_dma_env id.toNat).dma_state = app_dma_state_t.APP_DMA_INVALID) := by
  simp [DMA_HANDLE_MAX]

/-- C13: for an id that is negative, at least 8, or names an INVALID slot,
`app_dma_start` returns `APP_DRV_ERR_INVALID_PARAM` and returns the state it was
given (no collaborator is called); for every other id it makes exactly one
collaborator call, `hal_dma_start_it` on the handle of slot `id` with the given
source, destination and length, and stores back the handle the HAL returns. -/
theorem app_dma_start_calls_hal_iff_valid {W : Type} (P : Platform W) (s : State W)
    (id : Int) (src dst len : Nat) :
    ((id < 0 ∨ 8 ≤ id ∨
        (s.s_dma_env id.toNat).dma_state = app_dma_state_t.APP_DMA_INVALID) →
      app_dma_start P s id src dst len = (P.APP_DRV_ERR_INVALID_PARAM, s)) ∧
    (¬ (id < 0 ∨ 8 ≤ id ∨
        (s.s_dma_env id.toNat).dma_state = app_dma_state_t.APP_DMA_INVALID) →
      (app_dma_start P s id src dst len).2.trace =
        s.trace ++ [Call.hal_dma_start_it id.toNat src dst len] ∧
      ((app_dma_start P s id src dst len).2.s_dma_env id.toNat).handle =
        (P.hal_dma_start_it s.hw (s.s_dma_env id.toNat).handle src dst len).2.1 ∧
      (app_dma_start P s id src dst len).2.hw =
        (P.hal_dma_start_it s.hw (s.s_dma_env id.toNat).handle src dst len).2.2) := by
  constructor
  · intro h
    unfold app_dma_start
    rw [if_pos ((start_guard_iff s id).2 h)]
  · intro h
    unfold app_dma_start
    rw [if_neg (fun hg => h ((start_guard_iff s id).1 hg))]
    dsimp only
    split <;> simp

/-- C14: for an id that names an ACTIVE slot, `app_dma_start` returns
`APP_DRV_SUCCESS` when `hal_dma_start_it` returns `HAL_OK`, and otherwise the status
the HAL returned, truncated to 16 bits (the status itself when it fits). -/
theorem app_dma_start_status {W : Type} (P : Platform W) (s : State W)
    (id : Int) (src dst len : Nat) (h0 : 0 ≤ id) (h8 : id < 8)
    (hst : (s.s_dma_env id.toNat).dma_state = app_dma_state_t.APP_DMA_ACTIVITY) :
    ((P.hal_dma_start_it s.hw (s.s_dma_env id.toNat).handle src dst len).1 = P.HAL_OK →
      (app_dma_start P s id src dst len).1 = P.APP_DRV_SUCCESS) ∧
    ((P.hal_dma_start_it s.hw (s.s_dma_env id.toNat).handle src dst len).1 ≠ P.HAL_OK →
      (app_dma_start P s id src dst len).1 =
        (P.hal_dma_start_it s.hw (s.s_dma_env id.toNat).handle src dst len).1 % 65536) ∧
    ((P.hal_dma_start_it s.hw (s.s_dma_env id.toNat).handle src dst len).1 ≠ P.HAL_OK →
      (P.hal_dma_start_it s.hw (s.s_dma_env id.toNat).handle src dst len).1 < 65536 →
      (app_dma_start P s id src dst len).1 =
        (P.hal_dma_start_it s.hw (s.s_dma_env id.toNat).handle src dst len).1) := by
  have hg : ¬ (id < 0 ∨ id ≥ Int.ofNat DMA_HANDLE_MAX ∨
      (s.s_dma_env id.toNat).dma_state = app_dma_state_t.APP_DMA_INVALID) := by
    apply deinit_guard_false s id h0 h8
    rw [hst]
    exact fun h => by cases h
  unfold app_dma_start
  rw [if_neg hg]
  dsimp only
  refine ⟨?_, ?_, ?_⟩
  · intro hok
    rw [if_neg (fun hne => hne hok.symm)]
  · intro hne
    rw [if_pos (fun heq => hne heq.symm)]
  · intro hne hlt
    rw [if_pos (fun heq => hne heq.symm)]
    exact Nat.mod_eq_of_lt hlt

/-- C14, at concrete inputs: on the table with slot 0 ACTIVE and READY and slot 1
ACTIVE and BUSY, starting on slot 0 returns `APP_DRV_SUCCESS` (0) and starting on
slot 1 returns the HAL's busy status (2). -/
theorem app_dma_start_status_witness :
    (app_dma_start sample_platform busy_state 0 4096 8192 64).1 = 0 ∧
    (app_dma_start sample_platform busy_state 1 4096 8192 64).1 = 2 :=
  ⟨(app_dma_start_status sample_platform busy_state 0 4096 8192 64 (by decide) (by decide)
      (by decide)).1 (by decide),
   (app_dma_start_status sample_platform busy_state 1 4096 8192 64 (by decide) (by decide)
      (by decide)).2.2 (by decide) (by decide)⟩

/-! ## Wake-up -/

theorem wake_loop_no_active {W : Type} (P : Platform W) (n i : Nat) (find : Bool)
    (s : State W)
    (h : ∀ j, i ≤ j → j < i + n →
      (s.s_dma_env j).dma_state ≠ app_dma_state_t.APP_DMA_ACTIVITY) :
    wake_loop P n i find s = (find, s) := by
  induction n generalizing i with
  | zero => rfl
  | succ n ih =>
    unfold wake_loop
    rw [if_neg (h i (Nat.le_refl i) (by omega))]
    exact ih (i + 1) (fun j h1 h2 => h j (by omega) (by omega))

/-- C17: on a table with no ACTIVE slot, `dma_wake_up_ind` returns the state it was
given: no channel is resumed, the interrupt line is neither cleared nor enabled,
no slot changes. -/
theorem dma_wake_up_ind_no_active {W : Type} (P : Platform W) (s : State W)
    (h : ∀ i, i < DMA_HANDLE_MAX →
      (s.s_dma_env i).dma_state ≠ app_dma_state_t.APP_DMA_ACTIVITY) :
    dma_wake_up_ind P s = s := by
  unfold dma_wake_up_ind
  rw [wake_loop_no_active P DMA_HANDLE_MAX 0 false s (fun j _ hj => h j (by omega))]
  rfl

/-- C17, at a concrete input: the start-up table. -/
theorem dma_wake_up_ind_no_active_witness :
    dma_wake_up_ind sample_platform (init_state ()) = init_state () :=
  dma_wake_up_ind_no_active sample_platform (init_state ()) (by decide)

/-! ## Two allocations in a row -/

/-- C12: on the table with slot 0 INVALID and slot 1 ACTIVE, bound to channel 1 and
READY (not busy), the scan for channel 1 selects slot 0, the INVALID slot, and the
allocation returns id 0; the slot already bound to the channel is not preferred. -/
theorem scan_takes_free_slot_before_binding :
    (freed_below_state.s_dma_env 1).dma_state = app_dma_state_t.APP_DMA_ACTIVITY ∧
    (freed_below_state.s_dma_env 1).handle.channel = 1 ∧
    (freed_below_state.s_dma_env 1).handle.state ≠ hal_dma_state_t.HAL_DMA_STATE_BUSY ∧
    (freed_below_state.s_dma_env 0).dma_state = app_dma_state_t.APP_DMA_INVALID ∧
    (freed_below_state.s_dma_env 0).handle.channel ≠ 1 ∧
    sample_platform.IS_DMA_ALL_INSTANCE 1 = true ∧
    init_scan freed_below_state.s_dma_env 1 = some 0 ∧
    (app_dma_init sample_platform freed_below_state (some ⟨1, 1⟩) none).1 = 0 := by
  decide

theorem init_prepare_channel {W : Type} (P : Platform W) (s : State W)
    (p : app_dma_params_t) (e : app_dma_evt_handler_t) (i : Nat) :
    ((init_prepare P s p e i).s_dma_env i).handle.channel = p.channel_number := by
  simp [init_prepare, hal_nvic_enable_irq, hal_nvic_clear_pending_irq]

/-- A successful allocation: the scan selected the slot whose index is returned, and
that slot is ACTIVE afterwards with the handle `hal_dma_init` returned. -/
theorem app_dma_init_success {W : Type} (P : Platform W) (s : State W)
    (p : app_dma_params_t) (e : app_dma_evt_handler_t)
    (h : (app_dma_init P s (some p) e).1 ≠ -1) :
    ∃ i, init_scan s.s_dma_env p.channel_number = some i ∧
      P.IS_DMA_ALL_INSTANCE p.channel_number = true ∧
      (app_dma_init P s (some p) e).1 = Int.ofNat i ∧
      init_hal_status P s p e i = P.HAL_OK ∧
      ((app_dma_init P s (some p) e).2.s_dma_env i).dma_state
        = app_dma_state_t.APP_DMA_ACTIVITY ∧
      ((app_dma_init P s (some p) e).2.s_dma_env i).handle =
        (P.hal_dma_init (init_prepare P s p e i).hw
          ((init_prepare P s p e i).s_dma_env i).handle).2.1 := by
  obtain ⟨q, i, hq, hch, hscan⟩ :=
    (init_claims_iff P s (some p)).1 (app_dma_init_success_claims P s (some p) e h)
  cases hq
  refine ⟨i, hscan, hch, ?_, ?_, ?_, ?_⟩
  · simp only [app_dma_init, hch, hscan, Bool.true_eq_false, if_false] at h ⊢
    unfold init_result at h ⊢
    split
    · rename_i hne
      rw [if_pos hne] at h
      exact absurd rfl h
    · rfl
  · simp only [app_dma_init, hch, hscan, Bool.true_eq_false, if_false] at h
    unfold init_result at h
    unfold init_hal_status
    by_cases hne : P.HAL_OK ≠ (P.hal_dma_init (init_prepare P s p e i).hw
        ((init_prepare P s p e i).s_dma_env i).handle).1
    · rw [if_pos hne] at h
      exact absurd rfl h
    · exact (not_not.1 hne).symm
  · rw [app_dma_init_claimed P s p e i hch hscan]
    simp
  · rw [app_dma_init_claimed P s p e i hch hscan]
    simp

theorem init_scan_some {env : Nat → dma_env_t} {ch : dma_channel_t} {i : Nat}
    (h : init_scan env ch = some i) :
    ((env i).dma_state = app_dma_state_t.APP_DMA_INVALID ∨ (env i).handle.channel = ch) ∧
    (env i).handle.state ≠ hal_dma_state_t.HAL_DMA_STATE_BUSY ∧
    ∀ j, j < i → (env j).dma_state ≠ app_dma_state_t.APP_DMA_INVALID ∧
      (env j).handle.channel ≠ ch := by
  unfold init_scan at h
  split at h
  · cases h
  · rename_i k hk
    split at h
    · cases h
    · rename_i hbusy
      cases h
      obtain ⟨_, _, hp, hmin⟩ := first_from_some hk
      refine ⟨by simpa using hp, hbusy, ?_⟩
      intro j hj
      have := hmin j (Nat.zero_le j) hj
      simpa using this

/-- C15: provided `hal_dma_init` does not alter the channel field of the handle,
when `app_dma_init` succeeds for channel `a` and the immediately following
`app_dma_init` succeeds for a different channel `b`, the two ids differ. -/
theorem consecutive_allocations_distinct_ids {W : Type} (P : Platform W) (s : State W)
    (a b : app_dma_params_t) (ea eb : app_dma_evt_handler_t)
    (hab : a.channel_number ≠ b.channel_number)
    (hchan : ∀ w h, (P.hal_dma_init w h).2.1.channel = h.channel)
    (hfst : (app_dma_init P s (some a) ea).1 ≠ -1)
    (hsnd : (app_dma_init P (app_dma_init P s (some a) ea).2 (some b) eb).1 ≠ -1) :
    (app_dma_init P s (some a) ea).1 ≠
      (app_dma_init P (app_dma_init P s (some a) ea).2 (some b) eb).1 := by
  obtain ⟨i, _, _, hid1, _, hact, hhandle⟩ := app_dma_init_success P s a ea hfst
  obtain ⟨j, hscan2, _, hid2, _, _, _⟩ :=
    app_dma_init_success P (app_dma_init P s (some a) ea).2 b eb hsnd
  rw [hid1, hid2]
  intro heq
  have hij : i = j := Int.ofNat.inj heq
  subst hij
  rcases (init_scan_some hscan2).1 with hinv | hch
  · rw [hact] at hinv
    cases hinv
  · rw [hhandle, hchan, init_prepare_channel] at hch
    exact hab hch

/-- C15, at a concrete input: channels 0 and 1 allocated in a row from the start-up
table receive ids 0 and 1. -/
theorem consecutive_allocations_distinct_ids_witness :
    (app_dma_init sample_platform (init_state ()) (some ⟨0, 1⟩) none).1 = 0 ∧
    (app_dma_init sample_platform
      (app_dma_init sample_platform (init_state ()) (some ⟨0, 1⟩) none).2
      (some ⟨1, 1⟩) none).1 = 1 ∧
    (app_dma_init sample_platform (init_state ()) (some ⟨0, 1⟩) none).1 ≠
      (app_dma_init sample_platform
        (app_dma_init sample_platform (init_state ()) (some ⟨0, 1⟩) none).2
        (some ⟨1, 1⟩) none).1 :=
  ⟨by decide, by decide,
   consecutive_allocations_distinct_ids sample_platform (init_state ()) ⟨0, 1⟩ ⟨1, 1⟩ none none
    (by decide) (fun _ _ => rfl) (by decide) (by decide)⟩

/-- Releasing the only ACTIVE slot: the call returns `APP_DRV_SUCCESS` and disables
the interrupt line. -/
theorem app_dma_deinit_unregisters_last_slot {W : Type} (P : Platform W) (s : State W)
    (id : Int) (h0 : 0 ≤ id) (h8 : id < 8)
    (hst : (s.s_dma_env id.toNat).dma_state ≠ app_dma_state_t.APP_DMA_INVALID)
    (hothers : ∀ j, j < DMA_HANDLE_MAX → j ≠ id.toNat →
      (s.s_dma_env j).dma_state ≠ app_dma_state_t.APP_DMA_ACTIVITY) :
    (app_dma_deinit P s id).1 = P.APP_DRV_SUCCESS ∧
    (app_dma_deinit P s id).2.irq_enabled = false := by
  unfold app_dma_deinit
  rw [if_neg (deinit_guard_false s id h0 h8 hst)]
  dsimp only
  split
  · rename_i k hk
    have hk2 := first_from_some hk
    have hk3 : k < DMA_HANDLE_MAX := by
      have := hk2.2.1
      omega
    have hp := hk2.2.2.1
    simp only [set_env_apply, decide_eq_true_eq] at hp
    by_cases hki : k = id.toNat
    · rw [if_pos hki] at hp
      cases hp
    · rw [if_neg hki] at hp
      exact absurd hp (hothers k hk3 hki)
  · exact ⟨rfl, rfl⟩

/-! ## Allocate, start, release -/

theorem init_scan_init_state {W : Type} (w0 : W) (ch : dma_channel_t) :
    init_scan (init_state w0).s_dma_env ch = some 0 := by
  simp [init_scan, init_state, zero_env, zero_handle, first_from, DMA_HANDLE_MAX]

/-- C16: from the start-up state, for a supported channel, when the HAL reports
success for the initialisation and for the transfer start: `app_dma_init` returns
the valid id 0 and the shared interrupt line is enabled afterwards; `app_dma_start`
on that id returns `APP_DRV_SUCCESS`; `app_dma_deinit` on that id returns
`APP_DRV_SUCCESS` and the shared interrupt line is disabled afterwards. -/
theorem allocate_start_release {W : Type} (P : Platform W) (w0 : W)
    (p : app_dma_params_t) (e : app_dma_evt_handler_t) (src dst len : Nat)
    (r1 : dma_id_t × State W) (r2 r3 : Nat × State W)
    (hch : P.IS_DMA_ALL_INSTANCE p.channel_number = true)
    (h1 : r1 = app_dma_init P (init_state w0) (some p) e)
    (hinit : init_hal_status P (init_state w0) p e 0 = P.HAL_OK)
    (h2 : r2 = app_dma_start P r1.2 r1.1 src dst len)
    (hstart : (P.hal_dma_start_it r1.2.hw (r1.2.s_dma_env 0).handle src dst len).1 = P.HAL_OK)
    (h3 : r3 = app_dma_deinit P r2.2 r1.1) :
    r1.1 = 0 ∧ r1.2.irq_enabled = true ∧
    r2.1 = P.APP_DRV_SUCCESS ∧
    r3.1 = P.APP_DRV_SUCCESS ∧ r3.2.irq_enabled = false := by
  have hscan := init_scan_init_state w0 p.channel_number
  have hid : r1.1 = 0 := by
    rw [h1]
    unfold init_hal_status at hinit
    simp only [app_dma_init, hch, hscan, Bool.true_eq_false, if_false, init_result, hinit,
      ne_eq, not_true_eq_false]
    rfl
  have hst1 : r1.2 = (app_dma_init P (init_state w0) (some p) e).2 := by rw [h1]
  rw [app_dma_init_claimed P (init_state w0) p e 0 hch hscan] at hst1
  have hact1 : (r1.2.s_dma_env 0).dma_state = app_dma_state_t.APP_DMA_ACTIVITY := by
    rw [hst1]
    simp
  have hothers1 : ∀ j, j ≠ 0 →
      (r1.2.s_dma_env j).dma_state = app_dma_state_t.APP_DMA_INVALID := by
    intro j hj
    rw [hst1]
    simp [hj, init_state, zero_env]
  have hirq1 : r1.2.irq_enabled = true := by
    rw [hst1]
    simp [init_prepare, hal_nvic_enable_irq, hal_nvic_clear_pending_irq]
  have hstart2 := (app_dma_start_frame P r1.2 r1.1 src dst len).1
  have hret2 : r2.1 = P.APP_DRV_SUCCESS := by
    rw [h2, hid]
    have hg : ¬ ((0 : Int) < 0 ∨ (0 : Int) ≥ Int.ofNat DMA_HANDLE_MAX ∨
        (r1.2.s_dma_env (0 : Int).toNat).dma_state = app_dma_state_t.APP_DMA_INVALID) := by
      apply deinit_guard_false r1.2 0 (by decide) (by decide)
      show (r1.2.s_dma_env 0).dma_state ≠ app_dma_state_t.APP_DMA_INVALID
      rw [hact1]
      exact fun h => by cases h
    unfold app_dma_start
    rw [if_neg hg]
    dsimp only
    have hs : (P.hal_dma_start_it r1.2.hw (r1.2.s_dma_env (0 : Int).toNat).handle
        src dst len).1 = P.HAL_OK := hstart
    rw [if_neg (fun hne => hne hs.symm)]
  have hact2 : ∀ j, (r2.2.s_dma_env j).dma_state = (r1.2.s_dma_env j).dma_state := by
    intro j
    rw [h2]
    exact hstart2 j
  have hacc : (r2.2.s_dma_env (0 : Int).toNat).dma_state
      ≠ app_dma_state_t.APP_DMA_INVALID := by
    show (r2.2.s_dma_env 0).dma_state ≠ app_dma_state_t.APP_DMA_INVALID
    rw [hact2 0, hact1]
    exact fun h => by cases h
  have hrel := app_dma_deinit_unregisters_last_slot P r2.2 0 (by decide) (by decide) hacc
    (fun j _ hj => by
      rw [hact2 j, hothers1 j hj]
      exact fun h => by cases h)
  refine ⟨hid, hirq1, hret2, ?_, ?_⟩
  · rw [h3, hid]
    exact hrel.1
  · rw [h3, hid]
    exact hrel.2

/-- C16, at the concrete input of the scenario: channel 2, source 0x1000,
destination 0x2000, length 64, with the sample collaborators. -/
theorem allocate_start_release_witness :
    (app_dma_init sample_platform (init_state ()) (some ⟨2, 1⟩) none).1 = 0 ∧
    (app_dma_init sample_platform (init_state ()) (some ⟨2, 1⟩) none).2.irq_enabled = true ∧
    (app_dma_start sample_platform
      (app_dma_init sample_platform (init_state ()) (some ⟨2, 1⟩) none).2 0 4096 8192 64).1
      = sample_platform.APP_DRV_SUCCESS ∧
    (app_dma_deinit sample_platform
      (app_dma_start sample_platform
        (app_dma_init sample_platform (init_state ()) (some ⟨2, 1⟩) none).2 0 4096 8192 64).2
      0).1 = sample_platform.APP_DRV_SUCCESS ∧
    (app_dma_deinit sample_platform
      (app_dma_start sample_platform
        (app_dma_init sample_platform (init_state ()) (some ⟨2, 1⟩) none).2 0 4096 8192 64).2
      0).2.irq_enabled = false :=
  allocate_start_release sample_platform () ⟨2, 1⟩ none 4096 8192 64
    (app_dma_init sample_platform (init_state ()) (some ⟨2, 1⟩) none)
    (app_dma_start sample_platform
      (app_dma_init sample_platform (init_state ()) (some ⟨2, 1⟩) none).2 0 4096 8192 64)
    (app_dma_deinit sample_platform
      (app_dma_start sample_platform
        (app_dma_init sample_platform (init_state ()) (some ⟨2, 1⟩) none).2 0 4096 8192 64).2
      0)
    (by decide) rfl (by decide) rfl (by decide) rfl

/-! ## The power callbacks and the interrupt service leave the slots' ownership alone -/

theorem prepare_loop_owner {W : Type} (P : Platform W) (n i : Nat) (s : State W) :
    (∀ j, ((prepare_loop P n i s).2.s_dma_env j).evt_handler = (s.s_dma_env j).evt_handler) ∧
    ((∀ w h, (P.hal_dma_suspend_reg w h).1.channel = h.channel) →
      ∀ j, ((prepare_loop P n i s).2.s_dma_env j).handle.channel
        = (s.s_dma_env j).handle.channel) := by
  induction n generalizing i s with
  | zero => exact ⟨fun _ => rfl, fun _ _ => rfl⟩
  | succ n ih =>
    unfold prepare_loop
    split
    · dsimp only
      split
      · exact ⟨fun _ => rfl, fun _ _ => rfl⟩
      · refine ⟨fun j => ?_, fun hch j => ?_⟩
        · rw [(ih _ _).1 j]
          simp only [set_env_apply]
          split
          · subst_vars
            rfl
          · rfl
        · rw [(ih _ _).2 hch j]
          simp only [set_env_apply]
          split
          · subst_vars
            exact hch _ _
          · rfl
    · exact ih _ _

theorem wake_loop_owner {W : Type} (P : Platform W) (n i : Nat) (find : Bool) (s : State W) :
    (∀ j, ((wake_loop P n i find s).2.s_dma_env j).evt_handler
      = (s.s_dma_env j).evt_handler) ∧
    ((∀ w h, (P.hal_dma_resume_reg w h).1.channel = h.channel) →
      ∀ j, ((wake_loop P n i find s).2.s_dma_env j).handle.channel
        = (s.s_dma_env j).handle.channel) := by
  induction n generalizing i find s with
  | zero => exact ⟨fun _ => rfl, fun _ _ => rfl⟩
  | succ n ih =>
    unfold wake_loop
    split
    · refine ⟨fun j => ?_, fun hch j => ?_⟩
      · rw [(ih _ _ _).1 j]
        simp only [set_env_apply]
        split
        · subst_vars
          rfl
        · rfl
      · rw [(ih _ _ _).2 hch j]
        simp only [set_env_apply]
        split
        · subst_vars
          exact hch _ _
        · rfl
    · exact ih _ _ _

theorem irq_loop_owner {W : Type} (P : Platform W) (n i : Nat) (s : State W) :
    (∀ j, ((irq_loop P n i s).s_dma_env j).evt_handler = (s.s_dma_env j).evt_handler) ∧
    ((∀ w h, (P.hal_dma_irq_handler w h).1.channel = h.channel) →
      ∀ j, ((irq_loop P n i s).s_dma_env j).handle.channel
        = (s.s_dma_env j).handle.channel) := by
  induction n generalizing i s with
  | zero => exact ⟨fun _ => rfl, fun _ _ => rfl⟩
  | succ n ih =>
    unfold irq_loop
    split
    · refine ⟨fun j => ?_, fun hch j => ?_⟩
      · rw [(ih _ _).1 j]
        simp only [set_env_apply]
        split
        · subst_vars
          rfl
        · rfl
      · rw [(ih _ _).2 hch j]
        simp only [set_env_apply]
        split
        · subst_vars
          exact hch _ _
        · rfl
    · exact ih _ _

theorem dma_wake_up_ind_env {W : Type} (P : Platform W) (s : State W) :
    (dma_wake_up_ind P s).s_dma_env = (wake_loop P DMA_HANDLE_MAX 0 false s).2.s_dma_env := by
  unfold dma_wake_up_ind
  dsimp only
  split <;> rfl

theorem DMA_IRQHandler_env {W : Type} (P : Platform W) (s : State W) :
    ∃ t, (DMA_IRQHandler P s).s_dma_env
      = (irq_loop P DMA_HANDLE_MAX 0 { s with trace := t }).s_dma_env := by
  unfold DMA_IRQHandler
  cases hf : P.FLASH_PROTECT_PRIORITY
  · exact ⟨s.trace, rfl⟩
  · exact ⟨s.trace ++ [Call.platform_interrupt_protection_push], rfl⟩

/-- C19: in the default build, `dma_prepare_for_sleep`, `dma_wake_up_ind` and
`DMA_IRQHandler` leave the occupancy state and the event handler of every slot as
they were, whatever the collaborators do, and `dma_sleep_canceled` returns the
state it was given; the channel of every slot is as it was too, provided the HAL
operation the function calls on a handle (register suspend, register resume,
interrupt service) does not alter the handle's channel field. -/
theorem power_callbacks_and_isr_keep_slots {W : Type} (P : Platform W) (s : State W) :
    (∀ j, ((dma_prepare_for_sleep P s).2.s_dma_env j).dma_state = (s.s_dma_env j).dma_state ∧
      ((dma_prepare_for_sleep P s).2.s_dma_env j).evt_handler = (s.s_dma_env j).evt_handler) ∧
    (∀ j, ((dma_wake_up_ind P s).s_dma_env j).dma_state = (s.s_dma_env j).dma_state ∧
      ((dma_wake_up_ind P s).s_dma_env j).evt_handler = (s.s_dma_env j).evt_handler) ∧
    (∀ j, ((DMA_IRQHandler P s).s_dma_env j).dma_state = (s.s_dma_env j).dma_state ∧
      ((DMA_IRQHandler P s).s_dma_env j).evt_handler = (s.s_dma_env j).evt_handler) ∧
    dma_sleep_canceled s = s ∧
    ((∀ w h, (P.hal_dma_suspend_reg w h).1.channel = h.channel) →
      ∀ j, ((dma_prepare_for_sleep P s).2.s_dma_env j).handle.channel
        = (s.s_dma_env j).handle.channel) ∧
    ((∀ w h, (P.hal_dma_resume_reg w h).1.channel = h.channel) →
      ∀ j, ((dma_wake_up_ind P s).s_dma_env j).handle.channel
        = (s.s_dma_env j).handle.channel) ∧
    ((∀ w h, (P.hal_dma_irq_handler w h).1.channel = h.channel) →
      ∀ j, ((DMA_IRQHandler P s).s_dma_env j).handle.channel
        = (s.s_dma_env j).handle.channel) := by
  obtain ⟨t, ht⟩ := DMA_IRQHandler_env P s
  refine ⟨fun j => ⟨(dma_prepare_for_sleep_frame P s).1 j, ?_⟩,
    fun j => ⟨(dma_wake_up_ind_frame P s).1 j, ?_⟩,
    fun j => ⟨(DMA_IRQHandler_frame P s).1 j, ?_⟩, rfl, ?_, ?_, ?_⟩
  · exact (prepare_loop_owner P DMA_HANDLE_MAX 0 s).1 j
  · rw [dma_wake_up_ind_env]
    exact (wake_loop_owner P DMA_HANDLE_MAX 0 false s).1 j
  · rw [ht]
    exact (irq_loop_owner P DMA_HANDLE_MAX 0 { s with trace := t }).1 j
  · intro hch j
    exact (prepare_loop_owner P DMA_HANDLE_MAX 0 s).2 hch j
  · intro hch j
    rw [dma_wake_up_ind_env]
    exact (wake_loop_owner P DMA_HANDLE_MAX 0 false s).2 hch j
  · intro hch j
    rw [ht]
    exact (irq_loop_owner P DMA_HANDLE_MAX 0 { s with trace := t }).2 hch j

/-- C19, at a concrete input: on the table with slots 0 and 1 ACTIVE on channels 0
and 1, with the sample collaborators, slot 1 keeps its channel through the sleep
preparation, the wake-up and the interrupt service. -/
theorem power_callbacks_and_isr_keep_slots_witness :
    ((dma_prepare_for_sleep sample_platform busy_state).2.s_dma_env 1).handle.channel
      = (busy_state.s_dma_env 1).handle.channel ∧
    ((dma_wake_up_ind sample_platform busy_state).s_dma_env 1).handle.channel
      = (busy_state.s_dma_env 1).handle.channel ∧
    ((DMA_IRQHandler sample_platform busy_state).s_dma_env 1).handle.channel
      = (busy_state.s_dma_env 1).handle.channel :=
  ⟨(power_callbacks_and_isr_keep_slots sample_platform busy_state).2.2.2.2.1
      (fun _ _ => rfl) 1,
   (power_callbacks_and_isr_keep_slots sample_platform busy_state).2.2.2.2.2.1
      (fun _ _ => rfl) 1,
   (power_callbacks_and_isr_keep_slots sample_platform busy_state).2.2.2.2.2.2
      (fun _ _ => rfl) 1⟩

/-! ## Wake-up resumes every ACTIVE slot -/

theorem wake_loop_calls {W : Type} (P : Platform W) (n i : Nat) (find : Bool) (s : State W) :
    (wake_loop P n i find s).2.trace =
      s.trace ++ ((List.range' i n).filter
        (fun j => decide ((s.s_dma_env j).dma_state = app_dma_state_t.APP_DMA_ACTIVITY))).map
          Call.hal_dma_resume_reg ∧
    (wake_loop P n i find s).1 =
      (find || (List.range' i n).any
        (fun j => decide ((s.s_dma_env j).dma_state = app_dma_state_t.APP_DMA_ACTIVITY))) ∧
    (wake_loop P n i find s).2.irq_enabled = s.irq_enabled := by
  induction n generalizing i find s with
  | zero => simp [wake_loop]
  | succ n ih =>
    unfold wake_loop
    by_cases hact : (s.s_dma_env i).dma_state = app_dma_state_t.APP_DMA_ACTIVITY
    · rw [if_pos hact]
      dsimp only
      have hsame : (fun j => decide
            ((set_env s.s_dma_env i
              { s.s_dma_env i with
                handle := (P.hal_dma_resume_reg s.hw (s.s_dma_env i).handle).1 } j).dma_state
              = app_dma_state_t.APP_DMA_ACTIVITY)) =
          (fun j => decide ((s.s_dma_env j).dma_state = app_dma_state_t.APP_DMA_ACTIVITY)) := by
        funext j
        simp only [set_env_apply]
        split
        · subst_vars
          rfl
        · rfl
      obtain ⟨h1, h2, h3⟩ := ih (i + 1) true
        { s with
          s_dma_env := set_env s.s_dma_env i
            { s.s_dma_env i with
              handle := (P.hal_dma_resume_reg s.hw (s.s_dma_env i).handle).1 },
          hw := (P.hal_dma_resume_reg s.hw (s.s_dma_env i).handle).2,
          trace := s.trace ++ [Call.hal_dma_resume_reg i] }
      dsimp only at h1 h2 h3
      rw [hsame] at h1 h2
      refine ⟨?_, ?_, h3⟩
      · rw [h1, List.range'_succ]
        simp [List.filter_cons, hact]
      · rw [h2, List.range'_succ]
        simp [hact]
    · rw [if_neg hact]
      obtain ⟨h1, h2, h3⟩ := ih (i + 1) find s
      refine ⟨?_, ?_, h3⟩
      · rw [h1, List.range'_succ]
        simp [List.filter_cons, hact]
      · rw [h2, List.range'_succ]
        simp [hact]

/-- C20: `dma_wake_up_ind` calls `hal_dma_resume_reg` once for each ACTIVE slot, in
increasing index order, and for no other slot; when at least one slot is ACTIVE it
then clears the pending shared interrupt and enables the interrupt line, and when
none is it makes no further call and leaves the interrupt line as it was. -/
theorem dma_wake_up_ind_resumes_each_active {W : Type} (P : Platform W) (s : State W) :
    ((∃ i, i < DMA_HANDLE_MAX ∧
        (s.s_dma_env i).dma_state = app_dma_state_t.APP_DMA_ACTIVITY) →
      (dma_wake_up_ind P s).trace =
        s.trace ++ ((List.range DMA_HANDLE_MAX).filter
          (fun j => decide ((s.s_dma_env j).dma_state = app_dma_state_t.APP_DMA_ACTIVITY))).map
            Call.hal_dma_resume_reg ++
          [Call.hal_nvic_clear_pending_irq, Call.hal_nvic_enable_irq] ∧
      (dma_wake_up_ind P s).irq_enabled = true) ∧
    ((¬ ∃ i, i < DMA_HANDLE_MAX ∧
        (s.s_dma_env i).dma_state = app_dma_state_t.APP_DMA_ACTIVITY) →
      (dma_wake_up_ind P s).trace =
        s.trace ++ ((List.range DMA_HANDLE_MAX).filter
          (fun j => decide ((s.s_dma_env j).dma_state = app_dma_state_t.APP_DMA_ACTIVITY))).map
            Call.hal_dma_resume_reg ∧
      ((List.range DMA_HANDLE_MAX).filter
          (fun j => decide ((s.s_dma_env j).dma_state = app_dma_state_t.APP_DMA_ACTIVITY)))
        = [] ∧
      (dma_wake_up_ind P s).irq_enabled = s.irq_enabled) := by
  obtain ⟨h1, h2, h3⟩ := wake_loop_calls P DMA_HANDLE_MAX 0 false s
  rw [← List.range_eq_range'] at h1 h2
  constructor
  · rintro ⟨i, hi, ha⟩
    have hfind : (wake_loop P DMA_HANDLE_MAX 0 false s).1 = true := by
      rw [h2]
      simp only [Bool.false_or, List.any_eq_true, List.mem_range, decide_eq_true_eq]
      exact ⟨i, hi, ha⟩
    unfold dma_wake_up_ind
    dsimp only
    rw [if_pos hfind]
    simp [hal_nvic_enable_irq, hal_nvic_clear_pending_irq, h1]
  · intro hno
    have hfind : ¬ (wake_loop P DMA_HANDLE_MAX 0 false s).1 = true := by
      rw [h2]
      simp only [Bool.false_or, List.any_eq_true, List.mem_range, decide_eq_true_eq]
      exact hno
    unfold dma_wake_up_ind
    dsimp only
    rw [if_neg hfind]
    refine ⟨h1, ?_, h3⟩
    rw [List.filter_eq_nil_iff]
    intro j hj
    simp only [List.mem_range] at hj
    simp only [decide_eq_true_eq]
    exact fun ha => hno ⟨j, hj, ha⟩

/-! ## Interrupt service -/

theorem irq_loop_calls {W : Type} (P : Platform W) (n i : Nat) (s : State W) :
    (irq_loop P n i s).trace =
      s.trace ++ ((List.range' i n).filter
        (fun j => decide ((s.s_dma_env j).dma_state = app_dma_state_t.APP_DMA_ACTIVITY))).map
          Call.hal_dma_irq_handler := by
  induction n generalizing i s with
  | zero => simp [irq_loop]
  | succ n ih =>
    unfold irq_loop
    by_cases hact : (s.s_dma_env i).dma_state = app_dma_state_t.APP_DMA_ACTIVITY
    · rw [if_pos hact]
      dsimp only
      have hsame : (fun j => decide
            ((set_env s.s_dma_env i
              { s.s_dma_env i with
                handle := (P.hal_dma_irq_handler s.hw (s.s_dma_env i).handle).1 } j).dma_state
              = app_dma_state_t.APP_DMA_ACTIVITY)) =
          (fun j => decide ((s.s_dma_env j).dma_state = app_dma_state_t.APP_DMA_ACTIVITY)) := by
        funext j
        simp only [set_env_apply]
        split
        · subst_vars
          rfl
        · rfl
      have h1 := ih (i + 1)
        { s with
          s_dma_env := set_env s.s_dma_env i
            { s.s_dma_env i with
              handle := (P.hal_dma_irq_handler s.hw (s.s_dma_env i).handle).1 },
          hw := (P.hal_dma_irq_handler s.hw (s.s_dma_env i).handle).2,
          trace := s.trace ++ [Call.hal_dma_irq_handler i] }
      dsimp only at h1
      rw [hsame] at h1
      rw [h1, List.range'_succ]
      simp [List.filter_cons, hact]
    · rw [if_neg hact]
      rw [ih (i + 1) s, List.range'_succ]
      simp [List.filter_cons, hact]

/-- C21: `DMA_IRQHandler` calls `hal_dma_irq_handler` once for each ACTIVE slot, in
increasing index order, and for no INVALID slot; these are all the calls it makes,
apart from the interrupt-protection push before and pop after them in a build with
`FLASH_PROTECT_PRIORITY`. -/
theorem DMA_IRQHandler_services_each_active {W : Type} (P : Platform W) (s : State W) :
    (P.FLASH_PROTECT_PRIORITY = false →
      (DMA_IRQHandler P s).trace =
        s.trace ++ ((List.range DMA_HANDLE_MAX).filter
          (fun j => decide ((s.s_dma_env j).dma_state = app_dma_state_t.APP_DMA_ACTIVITY))).map
            Call.hal_dma_irq_handler) ∧
    (P.FLASH_PROTECT_PRIORITY = true →
      (DMA_IRQHandler P s).trace =
        s.trace ++ [Call.platform_interrupt_protection_push] ++
          ((List.range DMA_HANDLE_MAX).filter
            (fun j => decide
              ((s.s_dma_env j).dma_state = app_dma_state_t.APP_DMA_ACTIVITY))).map
            Call.hal_dma_irq_handler ++
          [Call.platform_interrupt_protection_pop]) := by
  constructor
  · intro hf
    unfold DMA_IRQHandler
    simp only [hf, Bool.false_eq_true, if_false]
    rw [irq_loop_calls, ← List.range_eq_range']
  · intro hf
    unfold DMA_IRQHandler
    simp only [hf, if_true]
    rw [irq_loop_calls, ← List.range_eq_range']

/-- C21, at a concrete input: on the table with slots 0 and 1 ACTIVE the interrupt
is forwarded for slot 0, then for slot 1, and for no other slot. -/
theorem DMA_IRQHandler_services_each_active_witness :
    (DMA_IRQHandler sample_platform busy_state).trace =
      busy_state.trace ++ [Call.hal_dma_irq_handler 0, Call.hal_dma_irq_handler 1] := by
  rw [(DMA_IRQHandler_services_each_active sample_platform busy_state).1 rfl]
  decide

/-! ## Completion callbacks -/

theorem callback_slot_some {env : Nat → dma_env_t} {hdma : dma_handle_t} {k : Nat} :
    callback_slot env hdma = some k ↔
      (k < DMA_HANDLE_MAX ∧
        (env k).dma_state = app_dma_state_t.APP_DMA_ACTIVITY ∧
        (env k).handle.channel = hdma.channel ∧
        ∀ j, j < k → ¬ ((env j).dma_state = app_dma_state_t.APP_DMA_ACTIVITY ∧
          (env j).handle.channel = hdma.channel)) := by
  constructor
  · intro h
    obtain ⟨_, h2, h3, h4⟩ := first_from_some h
    simp only [Bool.and_eq_true, decide_eq_true_eq] at h3
    refine ⟨by omega, h3.1, h3.2, ?_⟩
    intro j hj
    have := h4 j (Nat.zero_le j) hj
    simpa using this
  · rintro ⟨h1, h2, h3, h4⟩
    cases hc : callback_slot env hdma with
    | none =>
      unfold callback_slot at hc
      rw [first_from_none_iff] at hc
      have := hc k (Nat.zero_le k) (by omega)
      simp [h2, h3] at this
    | some m =>
      obtain ⟨_, _, h3m, h4m⟩ := first_from_some hc
      simp only [Bool.and_eq_true, decide_eq_true_eq] at h3m
      have hkm : ¬ k < m := by
        intro hlt
        have := h4m k (Nat.zero_le k) hlt
        simp [h2, h3] at this
      have hmk : ¬ m < k := fun hlt => h4 m hlt h3m
      have : m = k := by omega
      rw [this]

theorem callback_slot_none {env : Nat → dma_env_t} {hdma : dma_handle_t} :
    callback_slot env hdma = none ↔
      ∀ j, j < DMA_HANDLE_MAX → ¬ ((env j).dma_state = app_dma_state_t.APP_DMA_ACTIVITY ∧
        (env j).handle.channel = hdma.channel) := by
  unfold callback_slot
  rw [first_from_none_iff]
  constructor
  · intro h j hj
    have := h j (Nat.zero_le j) (by omega)
    simpa using this
  · intro h j _ hj
    have := h j (by omega)
    simpa using this

/-- C22: `dma_tfr_callback` (resp. `dma_err_callback`) invokes at most one event
handler: when slot `k` is the lowest-index ACTIVE slot whose channel equals the
channel of the handle passed in and it has a handler, exactly that handler is
invoked, with `APP_DMA_EVT_TFR` (resp. `APP_DMA_EVT_ERROR`); when that slot has no
handler, or no ACTIVE slot has the channel, the callback returns the state it was
given.  In every case the table is unchanged. -/
theorem completion_callback_notifies_lowest_match {W : Type} (s : State W)
    (hdma : dma_handle_t) :
    (∀ k h, k < DMA_HANDLE_MAX →
        (s.s_dma_env k).dma_state = app_dma_state_t.APP_DMA_ACTIVITY →
        (s.s_dma_env k).handle.channel = hdma.channel →
        (∀ j, j < k → ¬ ((s.s_dma_env j).dma_state = app_dma_state_t.APP_DMA_ACTIVITY ∧
          (s.s_dma_env j).handle.channel = hdma.channel)) →
        (s.s_dma_env k).evt_handler = some h →
        dma_tfr_callback s hdma =
          { s with trace := s.trace ++ [Call.evt_handler h app_dma_evt_type_t.APP_DMA_EVT_TFR] } ∧
        dma_err_callback s hdma =
          { s with
            trace := s.trace ++ [Call.evt_handler h app_dma_evt_type_t.APP_DMA_EVT_ERROR] }) ∧
    (∀ k, k < DMA_HANDLE_MAX →
        (s.s_dma_env k).dma_state = app_dma_state_t.APP_DMA_ACTIVITY →
        (s.s_dma_env k).handle.channel = hdma.channel →
        (∀ j, j < k → ¬ ((s.s_dma_env j).dma_state = app_dma_state_t.APP_DMA_ACTIVITY ∧
          (s.s_dma_env j).handle.channel = hdma.channel)) →
        (s.s_dma_env k).evt_handler = none →
        dma_tfr_callback s hdma = s ∧ dma_err_callback s hdma = s) ∧
    ((∀ j, j < DMA_HANDLE_MAX →
        ¬ ((s.s_dma_env j).dma_state = app_dma_state_t.APP_DMA_ACTIVITY ∧
          (s.s_dma_env j).handle.channel = hdma.channel)) →
      dma_tfr_callback s hdma = s ∧ dma_err_callback s hdma = s) ∧
    (dma_tfr_callback s hdma).s_dma_env = s.s_dma_env ∧
    (dma_err_callback s hdma).s_dma_env = s.s_dma_env := by
  refine ⟨?_, ?_, ?_, ?_, ?_⟩
  · intro k h h1 h2 h3 h4 h5
    have hk := callback_slot_some.2 ⟨h1, h2, h3, h4⟩
    simp [dma_tfr_callback, dma_err_callback, notify_owner, hk, h5]
  · intro k h1 h2 h3 h4 h5
    have hk := callback_slot_some.2 ⟨h1, h2, h3, h4⟩
    simp [dma_tfr_callback, dma_err_callback, notify_owner, hk, h5]
  · intro hno
    have hk := callback_slot_none.2 hno
    simp [dma_tfr_callback, dma_err_callback, notify_owner, hk]
  · unfold dma_tfr_callback notify_owner
    split
    · rfl
    · split <;> rfl
  · unfold dma_err_callback notify_owner
    split
    · rfl
    · split <;> rfl

/-- C22, at concrete inputs: on the table with slots 0 and 7 both ACTIVE on channel
6 and handlers 11 and 12, a completion on channel 6 invokes handler 11 only; a
completion on channel 5, bound to no slot, invokes nothing. -/
theorem completion_callback_notifies_lowest_match_witness :
    dma_tfr_callback two_owner_state (active_env 6 hal_dma_state_t.HAL_DMA_STATE_READY).handle =
      { two_owner_state with
        trace := two_owner_state.trace ++
          [Call.evt_handler 11 app_dma_evt_type_t.APP_DMA_EVT_TFR] } ∧
    dma_err_callback two_owner_state (active_env 5 hal_dma_state_t.HAL_DMA_STATE_READY).handle
      = two_owner_state :=
  ⟨((completion_callback_notifies_lowest_match two_owner_state
      (active_env 6 hal_dma_state_t.HAL_DMA_STATE_READY).handle).1 0 11 (by decide) (by decide)
      (by decide) (by decide) (by decide)).1,
   ((completion_callback_notifies_lowest_match two_owner_state
      (active_env 5 hal_dma_state_t.HAL_DMA_STATE_READY).handle).2.2.1 (by decide)).2⟩

/-! ## The slot a successful allocation returns -/

theorem init_prepare_evt_handler {W : Type} (P : Platform W) (s : State W)
    (p : app_dma_params_t) (e : app_dma_evt_handler_t) (i : Nat) :
    ((init_prepare P s p e i).s_dma_env i).evt_handler = e := by
  simp [init_prepare, hal_nvic_enable_irq, hal_nvic_clear_pending_irq]

theorem init_prepare_other {W : Type} (P : Platform W) (s : State W)
    (p : app_dma_params_t) (e : app_dma_evt_handler_t) (i j : Nat) (hj : j ≠ i) :
    (init_prepare P s p e i).s_dma_env j = s.s_dma_env j := by
  simp [init_prepare, hal_nvic_enable_irq, hal_nvic_clear_pending_irq, hj]

/-- C26: when `app_dma_init` succeeds, the id it returns is the lowest index `i`
below `DMA_HANDLE_MAX` such that slot `i` was INVALID or held the requested
channel, and the handle of that slot was not BUSY; on return slot `i` is ACTIVE and
stores the caller's event handler, and it holds the requested channel provided
`hal_dma_init` does not alter the handle's channel field. -/
theorem app_dma_init_returns_first_candidate {W : Type} (P : Platform W) (s : State W)
    (p : app_dma_params_t) (e : app_dma_evt_handler_t)
    (hok : (app_dma_init P s (some p) e).1 ≠ -1) :
    ∃ i, i < DMA_HANDLE_MAX ∧
      (app_dma_init P s (some p) e).1 = Int.ofNat i ∧
      ((s.s_dma_env i).dma_state = app_dma_state_t.APP_DMA_INVALID ∨
        (s.s_dma_env i).handle.channel = p.channel_number) ∧
      (∀ j, j < i → ¬ ((s.s_dma_env j).dma_state = app_dma_state_t.APP_DMA_INVALID ∨
        (s.s_dma_env j).handle.channel = p.channel_number)) ∧
      (s.s_dma_env i).handle.state ≠ hal_dma_state_t.HAL_DMA_STATE_BUSY ∧
      ((app_dma_init P s (some p) e).2.s_dma_env i).dma_state
        = app_dma_state_t.APP_DMA_ACTIVITY ∧
      ((app_dma_init P s (some p) e).2.s_dma_env i).evt_handler = e ∧
      ((∀ w h, (P.hal_dma_init w h).2.1.channel = h.channel) →
        ((app_dma_init P s (some p) e).2.s_dma_env i).handle.channel = p.channel_number) := by
  obtain ⟨i, hscan, hch, hid, _, hact, hhandle⟩ := app_dma_init_success P s p e hok
  obtain ⟨hcand, hbusy, hmin⟩ := init_scan_some hscan
  refine ⟨i, init_scan_lt hscan, hid, hcand, ?_, hbusy, hact, ?_, ?_⟩
  · intro j hj hc
    rcases hc with hc | hc
    · exact (hmin j hj).1 hc
    · exact (hmin j hj).2 hc
  · rw [app_dma_init_claimed P s p e i hch hscan]
    simp [init_prepare_evt_handler]
  · intro hkeep
    rw [hhandle, hkeep, init_prepare_channel]

/-- C26, at a concrete input: on the table with slot 0 INVALID and slot 1 ACTIVE on
channel 1, allocating channel 1 returns id 0, the lowest INVALID-or-matching slot. -/
theorem app_dma_init_returns_first_candidate_witness :
    ∃ i, i < DMA_HANDLE_MAX ∧
      (app_dma_init sample_platform freed_below_state (some ⟨1, 1⟩) (some 5)).1 = Int.ofNat i ∧
      ((freed_below_state.s_dma_env i).dma_state = app_dma_state_t.APP_DMA_INVALID ∨
        (freed_below_state.s_dma_env i).handle.channel = 1) ∧
      (∀ j, j < i → ¬ ((freed_below_state.s_dma_env j).dma_state
          = app_dma_state_t.APP_DMA_INVALID ∨
        (freed_below_state.s_dma_env j).handle.channel = 1)) ∧
      (freed_below_state.s_dma_env i).handle.state ≠ hal_dma_state_t.HAL_DMA_STATE_BUSY ∧
      ((app_dma_init sample_platform freed_below_state (some ⟨1, 1⟩) (some 5)).2.s_dma_env
          i).dma_state = app_dma_state_t.APP_DMA_ACTIVITY ∧
      ((app_dma_init sample_platform freed_below_state (some ⟨1, 1⟩) (some 5)).2.s_dma_env
          i).evt_handler = some 5 ∧
      ((∀ w h, (sample_platform.hal_dma_init w h).2.1.channel = h.channel) →
        ((app_dma_init sample_platform freed_below_state (some ⟨1, 1⟩) (some 5)).2.s_dma_env
          i).handle.channel = 1) :=
  app_dma_init_returns_first_candidate sample_platform freed_below_state ⟨1, 1⟩ (some 5)
    (by decide)

/-- C27: `app_dma_init` modifies at most one slot: when its scan selects slot `i`,
every other entry of the table (occupancy, handle with its channel, event handler)
is as before; when the scan selects no slot (the first candidate is BUSY, or there
is no candidate), and likewise for a null block or an unsupported channel, the call
returns `-1` and the state it was given. -/
theorem app_dma_init_modifies_selected_slot_only {W : Type} (P : Platform W) (s : State W)
    (p : app_dma_params_t) (e : app_dma_evt_handler_t) :
    (∀ i, P.IS_DMA_ALL_INSTANCE p.channel_number = true →
      init_scan s.s_dma_env p.channel_number = some i →
      ∀ j, j ≠ i → (app_dma_init P s (some p) e).2.s_dma_env j = s.s_dma_env j) ∧
    (init_scan s.s_dma_env p.channel_number = none →
      app_dma_init P s (some p) e = (-1, s)) ∧
    (P.IS_DMA_ALL_INSTANCE p.channel_number = false →
      app_dma_init P s (some p) e = (-1, s)) ∧
    app_dma_init P s none e = (-1, s) := by
  refine ⟨?_, ?_, ?_, ?_⟩
  · intro i hch hscan j hj
    rw [app_dma_init_claimed P s p e i hch hscan]
    simp [hj, init_prepare_other]
  · intro hscan
    by_cases hch : P.IS_DMA_ALL_INSTANCE p.channel_number = true
    · simp only [app_dma_init, hch, hscan, init_result_neg_one, Bool.true_eq_false, if_false]
    · have hch2 : P.IS_DMA_ALL_INSTANCE p.channel_number = false := by simpa using hch
      simp only [app_dma_init, hch2, if_true]
  · intro hch
    simp only [app_dma_init, hch, if_true]
  · simp only [app_dma_init, init_result_neg_one]

/-- C27, at concrete inputs: allocating channel 1 on the table with slot 0 INVALID
and slot 1 ACTIVE leaves slot 1 as it was; allocating channel 1 on the table whose
first candidate (slot 1, BUSY) blocks the scan leaves the state as it was. -/
theorem app_dma_init_modifies_selected_slot_only_witness :
    (app_dma_init sample_platform freed_below_state (some ⟨1, 1⟩) (some 5)).2.s_dma_env 1
      = freed_below_state.s_dma_env 1 ∧
    app_dma_init sample_platform busy_state (some ⟨1, 1⟩) (some 5) = (-1, busy_state) :=
  ⟨(app_dma_init_modifies_selected_slot_only sample_platform freed_below_state ⟨1, 1⟩
      (some 5)).1 0 (by decide) (by decide) 1 (by decide),
   (app_dma_init_modifies_selected_slot_only sample_platform busy_state ⟨1, 1⟩
      (some 5)).2.1 (by decide)⟩

/-! ## Handle access -/

/-- C31: `app_dma_get_handle` returns no handle (`NULL`) if and only if the id is
negative, at least 8, or names an INVALID slot; for every other id it returns the
handle stored in slot `id`.  In the default build the function is a read of the
table: it writes nothing and calls no collaborator, so there is no state after the
call other than the state before it. -/
theorem app_dma_get_handle_null_iff_rejected {W : Type} (s : State W) (id : Int) :
    (app_dma_get_handle s id = none ↔
      (id < 0 ∨ 8 ≤ id ∨
        (s.s_dma_env id.toNat).dma_state = app_dma_state_t.APP_DMA_INVALID)) ∧
    (¬ (id < 0 ∨ 8 ≤ id ∨
        (s.s_dma_env id.toNat).dma_state = app_dma_state_t.APP_DMA_INVALID) →
      app_dma_get_handle s id = some (s.s_dma_env id.toNat).handle) := by
  have hval : ¬ (id < 0 ∨ 8 ≤ id ∨
        (s.s_dma_env id.toNat).dma_state = app_dma_state_t.APP_DMA_INVALID) →
      app_dma_get_handle s id = some (s.s_dma_env id.toNat).handle := by
    intro h
    unfold app_dma_get_handle
    rw [if_neg (fun hg => h ((start_guard_iff s id).1 hg))]
  refine ⟨⟨?_, ?_⟩, hval⟩
  · intro hnone
    by_contra h
    rw [hval h] at hnone
    cases hnone
  · intro h
    unfold app_dma_get_handle
    rw [if_pos ((start_guard_iff s id).2 h)]

/-- C31, at concrete inputs: on the table with slots 0 and 1 ACTIVE, id 1 yields
the handle of slot 1, and the ids -1, 8 and 2 (an INVALID slot) yield none. -/
theorem app_dma_get_handle_null_iff_rejected_witness :
    app_dma_get_handle busy_state 1 = some (busy_state.s_dma_env 1).handle ∧
    app_dma_get_handle busy_state (-1) = none ∧
    app_dma_get_handle busy_state 8 = none ∧
    app_dma_get_handle busy_state 2 = none :=
  ⟨(app_dma_get_handle_null_iff_rejected busy_state 1).2 (by decide),
   (app_dma_get_handle_null_iff_rejected busy_state (-1)).1.2 (Or.inl (by decide)),
   (app_dma_get_handle_null_iff_rejected busy_state 8).1.2 (Or.inr (Or.inl (by decide))),
   (app_dma_get_handle_null_iff_rejected busy_state 2).1.2 (Or.inr (Or.inr (by decide)))⟩

end AppDma

namespace Delay

/-! ## The cycle count of a delay -/

theorem wait_loop_exits (cycles c0 : Nat) (hcy : cycles < UINT32_RANGE)
    (hc0 : c0 < UINT32_RANGE) (k : Nat) :
    ∀ c fuel, c < UINT32_RANGE →
      (c + UINT32_RANGE - c0) % UINT32_RANGE + k = cycles → k < fuel →
      ∃ c1, wait_loop cycles c0 fuel c = some c1 ∧
        (c1 + UINT32_RANGE - c0) % UINT32_RANGE = cycles := by
  unfold UINT32_RANGE at hcy hc0
  induction k with
  | zero =>
    intro c fuel hc he hf
    cases fuel with
    | zero => omega
    | succ fuel =>
      refine ⟨c, ?_, by simpa using he⟩
      unfold wait_loop
      rw [if_neg]
      unfold UINT32_RANGE at he ⊢
      omega
  | succ k ih =>
    intro c fuel hc he hf
    cases fuel with
    | zero => omega
    | succ fuel =>
      unfold wait_loop
      rw [if_pos]
      · apply ih
        · unfold UINT32_RANGE
          omega
        · unfold UINT32_RANGE at hc he ⊢
          omega
        · omega
      · unfold UINT32_RANGE at he ⊢
        omega

/-- C23: the cycle count `delay_us` waits for is `number_of_us * clock` modulo
2^32, `clock` being the selected entry of the table 64, 48, 16, 24, 16, 32: a call
with a non-zero argument returns once the cycle counter has advanced by exactly
that count.  With the 64 MHz clock (selection 0) the count is the exact product
`number_of_us * 64` for every argument up to 67108863, and for 67108864 it wraps
around to 0. -/
theorem delay_us_cycles_exact_up_to_67108863 :
    clocks = [64, 48, 16, 24, 16, 32] ∧
    (∀ sel clock n, clocks[sel]? = some clock →
      delay_us_cycles sel n = some ((n * clock) % 4294967296)) ∧
    (∀ sel clock n c0, clocks[sel]? = some clock → n ≠ 0 → c0 < 4294967296 →
      ∃ c1, delay_us sel n ((n * clock) % 4294967296 + 1) c0 = some c1 ∧
        (c1 + 4294967296 - c0) % 4294967296 = (n * clock) % 4294967296) ∧
    (∀ n, n ≤ 67108863 → delay_us_cycles 0 n = some (n * 64)) ∧
    delay_us_cycles 0 67108864 = some 0 ∧
    67108864 * 64 = 4294967296 := by
  refine ⟨rfl, ?_, ?_, ?_, by decide, by decide⟩
  · intro sel clock n h
    simp [delay_us_cycles, h, UINT32_RANGE]
  · intro sel clock n c0 h hn hc0
    have hcy : (n * clock) % 4294967296 < UINT32_RANGE := by
      unfold UINT32_RANGE
      omega
    obtain ⟨c1, h1, h2⟩ := wait_loop_exits ((n * clock) % 4294967296) c0 hcy hc0
      ((n * clock) % 4294967296) c0 ((n * clock) % 4294967296 + 1) hc0
      (by unfold UINT32_RANGE; omega) (by omega)
    refine ⟨c1, ?_, h2⟩
    simp only [delay_us, delay_us_cycles, h, UINT32_RANGE, hn, if_false]
    exact h1
  · intro n hn
    have h0 : clocks[0]? = some 64 := rfl
    simp only [delay_us_cycles, h0, UINT32_RANGE]
    congr 1
    omega

/-- C24: `delay_ms(number_of_ms)` is `delay_us` called with `1000 * number_of_ms`
reduced modulo 2^32; with the 64 MHz clock the cycle count it asks for is the exact
value `64000 * number_of_ms` for every argument up to 67108, which are exactly the
arguments whose microsecond count lies in the exact range of `delay_us`, and for
67109 the count has wrapped. -/
theorem delay_ms_cycles_exact_up_to_67108 :
    (∀ sel ms fuel c,
      delay_ms sel ms fuel c = delay_us sel ((1000 * ms) % 4294967296) fuel c) ∧
    (∀ sel ms, delay_ms_cycles sel ms = delay_us_cycles sel ((1000 * ms) % 4294967296)) ∧
    (∀ ms, ms ≤ 67108 → delay_ms_cycles 0 ms = some (64000 * ms)) ∧
    (∀ ms, ms ≤ 67108 ↔ 1000 * ms ≤ 67108863) ∧
    delay_ms_cycles 0 67109 = some 8704 ∧
    64000 * 67109 = 4294967296 + 8704 := by
  refine ⟨fun _ _ _ _ => rfl, fun _ _ => rfl, ?_, ?_, by decide, by decide⟩
  · intro ms hms
    have h0 : clocks[0]? = some 64 := rfl
    simp only [delay_ms_cycles, delay_us_cycles, h0, UINT32_RANGE]
    congr 1
    omega
  · intro ms
    omega

end Delay

namespace Ans

/-! ## Encoding and sending a New Alert -/

theorem ans_new_alert_encode_fits (a : ans_new_alert_t) (cap : Nat) (p_buff : Nat → Nat)
    (hcap : 2 + a.length ≤ cap) :
    ans_new_alert_encode a cap p_buff =
      some ((2 + a.length) % UINT16_RANGE,
        fun k =>
          if 2 ≤ k ∧ k < 2 + a.length then a.str_info (k - 2) % 256
          else if k = 1 then a.alert_num % 256
          else if k = 0 then a.cat_id % 256 else p_buff k) := by
  have h0 : 0 < cap := by omega
  have h1 : 1 < cap := by omega
  unfold ans_new_alert_encode
  rw [if_pos h0, if_pos h1]
  by_cases hl : 0 < a.length
  · rw [if_pos hl, if_pos hcap]
    simp [memcpy_s, store]
  · rw [if_neg hl]
    have hz : a.length = 0 := by omega
    congr 2
    funext k
    have hk : ¬ (2 ≤ k ∧ k < 2 + a.length) := by omega
    rw [if_neg hk]
    simp [store]

theorem ans_new_alert_encode_overflow (a : ans_new_alert_t) (cap : Nat) (p_buff : Nat → Nat)
    (hcap : cap < 2 + a.length) (hl : 0 < a.length) :
    ans_new_alert_encode a cap p_buff = none := by
  unfold ans_new_alert_encode
  by_cases h0 : 0 < cap
  · by_cases h1 : 1 < cap
    · rw [if_pos h0, if_pos h1, if_pos hl, if_neg (by omega)]
    · rw [if_pos h0, if_neg h1]
  · rw [if_neg h0]

/-- C25, as stated, fails: for the category id 300 the encoder writes 44, the id
converted to a byte, at offset 0 of a 20-byte buffer, not 300. -/
theorem ans_new_alert_encode_category_byte_counterexample :
    wide_alert.cat_id = 300 ∧
    2 + wide_alert.length ≤ 20 ∧
    (ans_new_alert_encode wide_alert 20 (fun _ => 0)).map (fun r => r.2 0) = some 44 ∧
    (ans_new_alert_encode wide_alert 20 (fun _ => 0)).map (fun r => r.2 0)
      ≠ some wide_alert.cat_id := by
  decide

/-- C25, amended: for a New Alert value with category `c`, alert count `n` and a
text of length `L`, with `2 + L` fitting the output buffer of `cap` bytes (and the
returned `uint16_t`), `ans_new_alert_encode` returns `2 + L` and has written `c`
converted to a byte (`c mod 256`, which is `c` when `c` is below 256) at offset 0,
`n` as a byte at offset 1 and the `L` text bytes at offsets 2 to `L + 1`, leaving
every later byte of the buffer as it was; for `L = 0` only the two header bytes
are written and 2 is returned. -/
theorem ans_new_alert_encode_layout (a : ans_new_alert_t) (cap : Nat) (p_buff : Nat → Nat)
    (hcap : 2 + a.length ≤ cap) (hlen : 2 + a.length < 65536) :
    ∃ buf, ans_new_alert_encode a cap p_buff = some (2 + a.length, buf) ∧
      buf 0 = a.cat_id % 256 ∧
      buf 1 = a.alert_num % 256 ∧
      (∀ k, k < a.length → buf (2 + k) = a.str_info k % 256) ∧
      (∀ k, 2 + a.length ≤ k → buf k = p_buff k) ∧
      (a.cat_id < 256 → buf 0 = a.cat_id) ∧
      (a.alert_num < 256 → buf 1 = a.alert_num) ∧
      (∀ k, k < a.length → a.str_info k < 256 → buf (2 + k) = a.str_info k) ∧
      (a.length = 0 → ∀ k, 2 ≤ k → buf k = p_buff k) := by
  have hmod : (2 + a.length) % UINT16_RANGE = 2 + a.length := Nat.mod_eq_of_lt hlen
  refine ⟨_, by rw [ans_new_alert_encode_fits a cap p_buff hcap, hmod], ?_, ?_, ?_, ?_, ?_,
    ?_, ?_, ?_⟩
  · simp
  · simp
  · intro k hk
    have h1 : 2 ≤ 2 + k ∧ 2 + k < 2 + a.length := by omega
    simp only [h1, and_self, if_true]
    congr 2
    omega
  · intro k hk
    have h1 : ¬ (2 ≤ k ∧ k < 2 + a.length) := by omega
    have h2 : ¬ k = 1 := by omega
    have h3 : ¬ k = 0 := by omega
    simp only [h1, h2, h3, if_false]
  · intro hc
    simp [Nat.mod_eq_of_lt hc]
  · intro hn
    simp [Nat.mod_eq_of_lt hn]
  · intro k hk hb
    have h1 : 2 ≤ 2 + k ∧ 2 + k < 2 + a.length := by omega
    simp only [h1, and_self, if_true]
    have h2 : 2 + k - 2 = k := by omega
    rw [h2, Nat.mod_eq_of_lt hb]
  · intro h0 k hk
    have h1 : ¬ (2 ≤ k ∧ k < 2 + a.length) := by omega
    have h2 : ¬ k = 1 := by omega
    have h3 : ¬ k = 0 := by omega
    simp only [h1, h2, h3, if_false]

/-- C25, amended, at a concrete input: category 0, 3 alerts and the text "Hi" in a
20-byte buffer. -/
theorem ans_new_alert_encode_layout_witness :
    ∃ buf, ans_new_alert_encode sample_alert 20 (fun _ => 255) = some (2 + 2, buf) ∧
      buf 0 = 0 % 256 ∧
      buf 1 = 3 % 256 ∧
      (∀ k, k < 2 → buf (2 + k) = sample_alert.str_info k % 256) ∧
      (∀ k, 2 + 2 ≤ k → buf k = 255) ∧
      ((0 : Nat) < 256 → buf 0 = 0) ∧
      ((3 : Nat) < 256 → buf 1 = 3) ∧
      (∀ k, k < 2 → sample_alert.str_info k < 256 → buf (2 + k) = sample_alert.str_info k) ∧
      ((2 : Nat) = 0 → ∀ k, 2 ≤ k → buf k = 255) :=
  ans_new_alert_encode_layout sample_alert 20 (fun _ => 255) (by decide) (by decide)

/-- When the encoded value fits the local array, `ans_new_alert_send` runs its
checks on the encoder's result. -/
theorem ans_new_alert_send_fits (E : Env) (s : State) (stack : Nat → Nat)
    (conn_idx : Nat) (a : ans_new_alert_t)
    (hfit : 2 + a.length ≤ E.ANS_NEWS_ALERT_VAL_LEN) :
    ∃ enc, ans_new_alert_encode a E.ANS_NEWS_ALERT_VAL_LEN stack = some enc ∧
      ans_new_alert_send E s stack conn_idx a
        = some (ans_new_alert_send_checked E s conn_idx a enc) := by
  refine ⟨_, ans_new_alert_encode_fits a E.ANS_NEWS_ALERT_VAL_LEN stack hfit, ?_⟩
  unfold ans_new_alert_send
  rw [ans_new_alert_encode_fits a E.ANS_NEWS_ALERT_VAL_LEN stack hfit]

/-- When the text is not empty and the encoded value does not fit the local array,
`ans_new_alert_send` has written outside the array before any check is made. -/
theorem ans_new_alert_send_overflow (E : Env) (s : State) (stack : Nat → Nat)
    (conn_idx : Nat) (a : ans_new_alert_t)
    (hover : E.ANS_NEWS_ALERT_VAL_LEN < 2 + a.length) (hl : 0 < a.length) :
    ans_new_alert_send E s stack conn_idx a = none := by
  unfold ans_new_alert_send
  rw [ans_new_alert_encode_overflow a E.ANS_NEWS_ALERT_VAL_LEN stack hover hl]

/-- The checks of `ans_new_alert_send`, in order: `SDK_ERR_INVALID_PARAM` when the
text length exceeds `ANS_UTF_8_STR_LEN_MAX`, the category id exceeds
`ANS_CAT_ID_INSTANT_MES` or the category's bit is clear in `sup_new_alert_cat`;
otherwise `SDK_ERR_NTF_DISABLED` when the connection's New Alert configuration is
not `PRF_CLI_START_NTF` or the category's bit is clear in `ntf_new_alert_cfg`; in
these cases the state, with the record of collaborator calls, is as before.  Only
when none applies is `ble_gatts_noti_ind` called, once, with the encoded value, and
its result returned. -/
theorem ans_new_alert_send_checks (E : Env) (s : State)
    (conn_idx : Nat) (a : ans_new_alert_t) (enc : Nat × (Nat → Nat)) :
    ((E.ANS_UTF_8_STR_LEN_MAX < a.length ∨ E.ANS_CAT_ID_INSTANT_MES < a.cat_id ∨
        s.s_ans_env.ans_init.sup_new_alert_cat &&& (1 <<< a.cat_id) = 0) →
      ans_new_alert_send_checked E s conn_idx a enc = (E.SDK_ERR_INVALID_PARAM, s)) ∧
    (¬ (E.ANS_UTF_8_STR_LEN_MAX < a.length ∨ E.ANS_CAT_ID_INSTANT_MES < a.cat_id ∨
        s.s_ans_env.ans_init.sup_new_alert_cat &&& (1 <<< a.cat_id) = 0) →
      (E.PRF_CLI_START_NTF ≠ s.s_ans_env.new_alert_ntf_cfg conn_idx ∨
        s.s_ans_env.ntf_new_alert_cfg &&& (1 <<< a.cat_id) = 0) →
      ans_new_alert_send_checked E s conn_idx a enc = (E.SDK_ERR_NTF_DISABLED, s)) ∧
    (¬ (E.ANS_UTF_8_STR_LEN_MAX < a.length ∨ E.ANS_CAT_ID_INSTANT_MES < a.cat_id ∨
        s.s_ans_env.ans_init.sup_new_alert_cat &&& (1 <<< a.cat_id) = 0) →
      ¬ (E.PRF_CLI_START_NTF ≠ s.s_ans_env.new_alert_ntf_cfg conn_idx ∨
        s.s_ans_env.ntf_new_alert_cfg &&& (1 <<< a.cat_id) = 0) →
      (ans_new_alert_send_checked E s conn_idx a enc).2.trace =
        s.trace ++ [Call.ble_gatts_noti_ind conn_idx
          (E.prf_find_handle_by_idx ANS_IDX_NEWS_ALERT_VAL s.s_ans_env.start_hdl
            s_ans_char_mask)
          ((List.range enc.1).map enc.2)] ∧
      (ans_new_alert_send_checked E s conn_idx a enc).2.s_ans_env = s.s_ans_env ∧
      (ans_new_alert_send_checked E s conn_idx a enc).1 =
        E.ble_gatts_noti_ind conn_idx
          (E.prf_find_handle_by_idx ANS_IDX_NEWS_ALERT_VAL s.s_ans_env.start_hdl
            s_ans_char_mask)
          ((List.range enc.1).map enc.2)) := by
  refine ⟨?_, ?_, ?_⟩
  · intro h
    unfold ans_new_alert_send_checked
    by_cases h1 : E.ANS_UTF_8_STR_LEN_MAX < a.length
    · rw [if_pos h1]
    · rw [if_neg h1]
      by_cases h2 : E.ANS_CAT_ID_INSTANT_MES < a.cat_id
      · rw [if_pos h2]
      · rw [if_neg h2]
        rcases h with h | h | h
        · exact absurd h h1
        · exact absurd h h2
        · rw [if_pos h]
  · intro hv hd
    have h1 : ¬ E.ANS_UTF_8_STR_LEN_MAX < a.length := fun h => hv (Or.inl h)
    have h2 : ¬ E.ANS_CAT_ID_INSTANT_MES < a.cat_id := fun h => hv (Or.inr (Or.inl h))
    have h3 : ¬ s.s_ans_env.ans_init.sup_new_alert_cat &&& (1 <<< a.cat_id) = 0 :=
      fun h => hv (Or.inr (Or.inr h))
    unfold ans_new_alert_send_checked
    rw [if_neg h1, if_neg h2, if_neg h3]
    by_cases h4 : E.PRF_CLI_START_NTF ≠ s.s_ans_env.new_alert_ntf_cfg conn_idx
    · rw [if_pos h4]
    · rw [if_neg h4]
      rcases hd with h | h
      · exact absurd h h4
      · rw [if_pos h]
  · intro hv hd
    have h1 : ¬ E.ANS_UTF_8_STR_LEN_MAX < a.length := fun h => hv (Or.inl h)
    have h2 : ¬ E.ANS_CAT_ID_INSTANT_MES < a.cat_id := fun h => hv (Or.inr (Or.inl h))
    have h3 : ¬ s.s_ans_env.ans_init.sup_new_alert_cat &&& (1 <<< a.cat_id) = 0 :=
      fun h => hv (Or.inr (Or.inr h))
    have h4 : ¬ E.PRF_CLI_START_NTF ≠ s.s_ans_env.new_alert_ntf_cfg conn_idx :=
      fun h => hd (Or.inl h)
    have h5 : ¬ s.s_ans_env.ntf_new_alert_cfg &&& (1 <<< a.cat_id) = 0 :=
      fun h => hd (Or.inr h)
    unfold ans_new_alert_send_checked
    rw [if_neg h1, if_neg h2, if_neg h3, if_neg h4, if_neg h5]
    exact ⟨rfl, rfl, rfl⟩

/-- The sample alert, which fits the local array, is notified on connection 0 with
the value 0, 3, 72, 105 at handle 20, and is refused with `SDK_ERR_NTF_DISABLED` on
connection 1, which has not enabled the notification. -/
theorem ans_new_alert_send_checks_witness :
    (ans_new_alert_send sample_env sample_state (fun _ => 0) 0 sample_alert).map
      (fun r => (r.1, r.2.trace)) = some (0, [Call.ble_gatts_noti_ind 0 20 [0, 3, 72, 105]]) ∧
    (ans_new_alert_send sample_env sample_state (fun _ => 0) 1 sample_alert).map
      (fun r => (r.1, r.2.trace)) = some (sample_env.SDK_ERR_NTF_DISABLED, []) := by
  decide

/-- C28: a New Alert whose text length is 19, above `ANS_UTF_8_STR_LEN_MAX` (18),
does not make `ans_new_alert_send` return `SDK_ERR_INVALID_PARAM`: the value is
encoded before the length is checked, and the encoder writes 21 bytes into the
local array of `ANS_NEWS_ALERT_VAL_LEN` (20) bytes, so the call has written outside
the array (undefined behaviour) before it reaches the check. -/
theorem ans_new_alert_send_overlong_text_overflows :
    sample_env.ANS_UTF_8_STR_LEN_MAX < overlong_alert.length ∧
    sample_env.ANS_NEWS_ALERT_VAL_LEN < 2 + overlong_alert.length ∧
    (ans_new_alert_encode overlong_alert sample_env.ANS_NEWS_ALERT_VAL_LEN
      (fun _ => 0)).isNone = true ∧
    (ans_new_alert_send sample_env sample_state (fun _ => 0) 0 overlong_alert).isNone = true ∧
    (ans_new_alert_send sample_env sample_state (fun _ => 0) 0 overlong_alert).map
      (fun r => r.1) ≠ some sample_env.SDK_ERR_INVALID_PARAM := by
  decide

/-! ## Control point -/

/-- What the support check computes for a specific category: when the three New
Alert command ids are not all the same number, every valid command with a category
id up to `ANS_CAT_ID_INSTANT_MES` (and other than `ANS_CAT_ID_ALL`) is checked
against `sup_unread_alert_sta`, whatever its kind. -/
theorem ans_ctrl_pt_sup_check_specific_category (E : Env) (env : ans_env_t)
    (p : ans_ctrl_pt_t)
    (hids : ¬ (E.ANS_CTRL_PT_EN_NEW_INC_ALERT_NTF = E.ANS_CTRL_PT_DIS_NEW_INC_ALERT_NTF ∧
      E.ANS_CTRL_PT_DIS_NEW_INC_ALERT_NTF = E.ANS_CTRL_PT_NTF_NEW_INC_ALERT_IMME))
    (hcmd : p.cmd_id ≤ E.ANS_CTRL_PT_NTF_UNREAD_CAT_STA_IMME)
    (hcat : p.cat_id ≤ E.ANS_CAT_ID_INSTANT_MES) (hall : p.cat_id ≠ E.ANS_CAT_ID_ALL) :
    (ans_ctrl_pt_sup_check E env p = true ↔
      env.ans_init.sup_unread_alert_sta &&& (1 <<< p.cat_id) ≠ 0) := by
  have h1 : ¬ E.ANS_CTRL_PT_NTF_UNREAD_CAT_STA_IMME < p.cmd_id := by omega
  have h2 : ¬ (E.ANS_CAT_ID_INSTANT_MES < p.cat_id ∧ E.ANS_CAT_ID_ALL ≠ p.cat_id) := by
    intro h
    omega
  have h3 : ¬ (E.ANS_CTRL_PT_EN_NEW_INC_ALERT_NTF = p.cmd_id ∧
      E.ANS_CTRL_PT_DIS_NEW_INC_ALERT_NTF = p.cmd_id ∧
      E.ANS_CTRL_PT_NTF_NEW_INC_ALERT_IMME = p.cmd_id) := by
    rintro ⟨ha, hb, hc⟩
    exact hids ⟨ha.trans hb.symm, hb.trans hc.symm⟩
  unfold ans_ctrl_pt_sup_check
  rw [if_neg h1, if_neg h2, if_neg h3, if_neg hall]
  split <;> simp_all

/-- C29: with only category 0 supported for New Alert and only category 1 for
Unread Alert Status, the New Alert commands (enable 0, disable 2, notify
immediately 4) are refused for category 0, whose bit is set in
`sup_new_alert_cat`, and accepted for category 1, whose bit is not: the check
tests `sup_unread_alert_sta`. -/
theorem new_alert_command_checked_against_unread_mask :
    sample_state.s_ans_env.ans_init.sup_new_alert_cat &&& (1 <<< 0) ≠ 0 ∧
    sample_state.s_ans_env.ans_init.sup_new_alert_cat &&& (1 <<< 1) = 0 ∧
    ans_ctrl_pt_sup_check sample_env sample_state.s_ans_env ⟨0, 0⟩ = false ∧
    ans_ctrl_pt_sup_check sample_env sample_state.s_ans_env ⟨2, 0⟩ = false ∧
    ans_ctrl_pt_sup_check sample_env sample_state.s_ans_env ⟨4, 0⟩ = false ∧
    ans_ctrl_pt_sup_check sample_env sample_state.s_ans_env ⟨0, 1⟩ = true ∧
    ans_ctrl_pt_sup_check sample_env sample_state.s_ans_env ⟨2, 1⟩ = true ∧
    ans_ctrl_pt_sup_check sample_env sample_state.s_ans_env ⟨4, 1⟩ = true := by
  decide

/-- What "enable Unread Alert Status notification" for all categories writes: the
previous `ntf_unread_alert_cfg` OR-ed with `sup_new_alert_cat`; `ntf_new_alert_cfg`
is not written. -/
theorem ans_ctrl_pt_handler_enable_all_unread (E : Env) (s : State) (conn_idx : Nat)
    (p : ans_ctrl_pt_t)
    (hne : E.ANS_CTRL_PT_EN_UNREAD_CAT_STA_NTF ≠ E.ANS_CTRL_PT_EN_NEW_INC_ALERT_NTF)
    (hcmd : p.cmd_id = E.ANS_CTRL_PT_EN_UNREAD_CAT_STA_NTF)
    (hcat : p.cat_id = E.ANS_CAT_ID_ALL) :
    (ans_ctrl_pt_handler E s conn_idx p).s_ans_env.ntf_unread_alert_cfg =
      (s.s_ans_env.ntf_unread_alert_cfg ||| s.s_ans_env.ans_init.sup_new_alert_cat) % 65536 ∧
    (ans_ctrl_pt_handler E s conn_idx p).s_ans_env.ntf_new_alert_cfg
      = s.s_ans_env.ntf_new_alert_cfg := by
  have h1 : ¬ p.cmd_id = E.ANS_CTRL_PT_EN_NEW_INC_ALERT_NTF := by
    rw [hcmd]
    exact hne
  unfold ans_ctrl_pt_handler
  dsimp only
  rw [if_neg h1, if_pos hcmd, if_pos hcat.symm]
  simp [deliver, or_assign, UINT16_RANGE]

/-- C30: with `sup_new_alert_cat = 1`, `sup_unread_alert_sta = 2` and
`ntf_unread_alert_cfg = 0`, the command "enable Unread Alert Status notification"
(1) for all categories (0xFF) leaves `ntf_unread_alert_cfg = 1`, the previous value
OR-ed with `sup_new_alert_cat`, not `2`, the value OR-ed with
`sup_unread_alert_sta`; `ntf_new_alert_cfg` is unchanged.  The command "disable
Unread Alert Status notification" (3) for all categories clears the bits of
`sup_unread_alert_sta`. -/
theorem enable_all_unread_ors_new_alert_mask :
    sample_state.s_ans_env.ntf_unread_alert_cfg = 0 ∧
    sample_state.s_ans_env.ans_init.sup_new_alert_cat = 1 ∧
    sample_state.s_ans_env.ans_init.sup_unread_alert_sta = 2 ∧
    (ans_ctrl_pt_handler sample_env sample_state 0 ⟨1, 255⟩).s_ans_env.ntf_unread_alert_cfg
      = 1 ∧
    (ans_ctrl_pt_handler sample_env sample_state 0 ⟨1, 255⟩).s_ans_env.ntf_unread_alert_cfg
      ≠ (sample_state.s_ans_env.ntf_unread_alert_cfg |||
          sample_state.s_ans_env.ans_init.sup_unread_alert_sta) ∧
    (ans_ctrl_pt_handler sample_env sample_state 0 ⟨1, 255⟩).s_ans_env.ntf_new_alert_cfg
      = sample_state.s_ans_env.ntf_new_alert_cfg ∧
    (ans_ctrl_pt_handler sample_env
      { sample_state with
        s_ans_env := { sample_state.s_ans_env with ntf_unread_alert_cfg := 3 } }
      0 ⟨3, 255⟩).s_ans_env.ntf_unread_alert_cfg = 1 := by
  decide

end Ans
